import Mathlib

/-!
# ImageLoading.cpp (VideoConferenceProxyFilter): a shallow embedding

The C++ file turns a still image into one Media Foundation sample.  Every
function in it is a straight line of calls into WIC / Media Foundation, each
followed by an early `return {}` when the call reports failure.

The embedding keeps that shape:

* the outcome of every collaborator call is read from a record (`World`), one
  field per call site, so a theorem quantified over `World` speaks about every
  combination of collaborator outcomes;
* every call that the code performs is appended to a trace (`List Call`), so
  "X is never invoked" is a statement about the trace;
* machine integers are `Nat` with explicit reduction modulo `2^32` / `2^64`;
* a pointer is an `Option`; a member call through a null `com_ptr` is the
  distinguished outcome `Flow.fault`;
* the function-local static `s_Factory` of `_GetWIC` is part of the state.

What is taken from the platform contract rather than from the file:

* out-parameters of a successful COM call are non-null, except where the code
  itself tests the pointer (`if (!encoder)`);
* a call whose status the code discards (`CreateEncoder`, the encoder's
  `Initialize`, `SetGUID`, `SetUINT32`, `GetGUID` at line 152, `GlobalLock`,
  `Release`, `MFShutdownObject`) is recorded in the trace and has no outcome;
* `ProcessOutput` leaves a caller-supplied `pSample` in place, and stores its own
  (possibly null) sample only when it was passed null;
* releases done by smart-pointer destructors are not traced.

A `Sample` records what this code did to the sample: the timing attributes it
set and, for each buffer it attached, the size and alignment it requested and
the current length it set. Pixel contents are not modelled.
-/

namespace ImageLoading

/-! ## Platform vocabulary -/

/-- A 32-bit signed COM status code. -/
abbrev HRESULT := Int

def S_OK : HRESULT := 0
def S_FALSE : HRESULT := 1
def E_FAIL : HRESULT := -2147467259

/-- Source line 29: `bool failed(HRESULT hr) { return hr != S_OK; }`. -/
def failed (hr : HRESULT) : Bool := hr != S_OK

/-- The `FAILED(hr)` test of winerror.h (platform SDK): `hr < 0`. -/
def FAILED (hr : HRESULT) : Bool := decide (hr < 0)

/-- The `SUCCEEDED(hr)` test of winerror.h (platform SDK): `hr >= 0`. -/
def SUCCEEDED (hr : HRESULT) : Bool := decide (0 ≤ hr)

/-- Reduction of a value to an unsigned 32-bit machine word (`UINT`, `DWORD`, `UINT32`). -/
def u32 (n : Nat) : Nat := n % 4294967296

/-- Reduction of a value to an unsigned 64-bit machine word (`ULONGLONG`). -/
def u64 (n : Nat) : Nat := n % 18446744073709551616

/-- Unsigned 32-bit multiplication. -/
def mul32 (a b : Nat) : Nat := u32 (a * b)

/-- Unsigned 32-bit subtraction (wraps below zero). -/
def sub32 (a b : Nat) : Nat := u32 (u32 a + 4294967296 - u32 b)

/-- Media subtype identifiers that the code compares against. -/
inductive GUID where
  | MFVideoFormat_RGB24
  | MFVideoFormat_MJPG
  | other (n : Nat)
  deriving DecidableEq

/-- WIC pixel format identifiers. -/
inductive WICPixelFormatGUID where
  | GUID_WICPixelFormat24bppBGR
  | GUID_WICPixelFormat24bppRGB
  | other (n : Nat)
  deriving DecidableEq

/-- The three transform categories of `transformerCategories` (source lines 154-156). -/
inductive Category where
  | MFT_CATEGORY_VIDEO_PROCESSOR
  | MFT_CATEGORY_VIDEO_DECODER
  | MFT_CATEGORY_VIDEO_ENCODER
  deriving DecidableEq

/-- Value of the `_MFT_OUTPUT_STREAM_INFO_FLAGS` enumeration in mftransform.h (platform SDK). -/
def MFT_OUTPUT_STREAM_PROVIDES_SAMPLES : Nat := 0x100

/-- Value of the `_MFT_OUTPUT_STREAM_INFO_FLAGS` enumeration in mftransform.h (platform SDK). -/
def MFT_OUTPUT_STREAM_CAN_PROVIDE_SAMPLES : Nat := 0x200

/-- Value of the `_MFT_PROCESS_OUTPUT_FLAGS` enumeration in mftransform.h (platform SDK):
    a flag for `ProcessOutput`, which the code tests against the stream-info flags word. -/
def MFT_PROCESS_OUTPUT_DISCARD_WHEN_NO_BUFFER : Nat := 0x1

/-- Alignment mask from mfapi.h (platform SDK). -/
def MF_64_BYTE_ALIGNMENT : Nat := 0x3F

/-! ## Samples and buffers -/

/-- What this code requested for, and did to, one `IMFMediaBuffer`. -/
structure MediaBuffer where
  /-- The byte size passed to `MFCreateAlignedMemoryBuffer`. -/
  cbMaxLength : Nat
  /-- The alignment argument passed to `MFCreateAlignedMemoryBuffer`. -/
  fAlignmentFlags : Nat
  /-- The value of the last `SetCurrentLength`, `none` when never set. -/
  cbCurrentLength : Option Nat
  deriving DecidableEq

/-- An `IMFSample`: timing attributes and attached buffers. -/
structure Sample where
  duration : Option Nat
  time : Option Nat
  buffers : List MediaBuffer
  deriving DecidableEq

/-- A sample fresh from `MFCreateSample`. -/
def Sample.fresh : Sample := { duration := none, time := none, buffers := [] }

/-- The bitmap source handed out by the loader. -/
inductive BitmapSource where
  | decodedFrame
  | scaler (width height : Nat)
  | convertedBitmap (src : BitmapSource)
  deriving DecidableEq

/-! ## Trace of collaborator calls -/

/-- One performed call (or log line). Transform calls carry the index of the
    candidate the transform was activated from. -/
inductive Call where
  | MFGetAttributeSize
  | GetGUID
  | CoCreateInstance
  | CreateDecoderFromStream
  | GetFrame
  | GetSize
  | CreateBitmapScaler
  | InitializeScaler (width height : Nat)
  | GetPixelFormat
  | WICConvertBitmapSource
  | MFCreateSample
  | SetSampleDuration (d : Nat)
  | SetSampleTime (t : Nat)
  | MFCreateAlignedMemoryBuffer (cb align : Nat)
  | Lock
  | CopyPixels (stride cb : Nat)
  | Unlock
  | SetCurrentLength (cb : Nat)
  | AddBuffer
  | CreateEncoder
  | CreateStreamOnHGlobal
  | InitializeEncoder
  | CreateNewFrame
  | InitializeFrame
  | SetPixelFormat
  | SetSize (width height : Nat)
  | WriteSource
  | CommitFrame
  | CommitEncoder
  | Stat
  | GetHGlobalFromStream
  | GlobalLock
  | GlobalUnlock
  | copy (n : Nat)
  | MFTEnumEx (c : Category)
  | ActivateObject (i : Nat)
  | Release (i : Nat)
  | CoTaskMemFree
  | LOG (msg : String)
  | MFShutdownObject (i : Nat)
  | MFCreateMediaType
  | SetGUID
  | SetUINT32
  | MFSetAttributeSize (width height : Nat)
  | MFSetAttributeRatio (width height : Nat)
  | SetInputType (i : Nat)
  | SetOutputType (i : Nat)
  | ProcessInput (i : Nat)
  | GetOutputStreamInfo (i : Nat)
  | ProcessOutput (i : Nat)
  | ReleaseEvents

/-! ## Collaborator outcomes -/

/-- Outcomes of the calls made inside `LoadAsRGB24BitmapWithSize`. -/
structure LoaderWorld where
  CreateDecoderFromStream : HRESULT
  GetFrame : HRESULT
  GetSize : HRESULT
  imageWidth : Nat
  imageHeight : Nat
  CreateBitmapScaler : HRESULT
  InitializeScaler : HRESULT
  GetPixelFormat : HRESULT
  pixelFormat : WICPixelFormatGUID
  WICConvertBitmapSource : HRESULT

/-- Outcomes of the calls made inside `EncodeBitmapToContainer`. -/
structure EncoderWorld where
  /-- Whether `encoder` is non-null after `CreateEncoder` (its status is discarded, line 116). -/
  encoder : Bool
  CreateStreamOnHGlobal : HRESULT
  CreateNewFrame : HRESULT
  InitializeFrame : HRESULT
  SetPixelFormat : HRESULT
  SetSize : HRESULT
  WriteSource : HRESULT
  CommitFrame : HRESULT
  CommitEncoder : HRESULT

/-- Outcomes of the calls that build one sample with one buffer. -/
structure SampleWorld where
  MFCreateSample : HRESULT
  SetSampleDuration : HRESULT
  SetSampleTime : HRESULT
  MFCreateAlignedMemoryBuffer : HRESULT
  Lock : HRESULT
  /-- The `max_length` out-parameter of `Lock`. -/
  max_length : Nat
  Unlock : HRESULT
  SetCurrentLength : HRESULT
  AddBuffer : HRESULT

/-- Behaviour of one transform (`IMFTransform`) once activated. -/
structure Transform where
  SetInputType : HRESULT
  SetOutputType : HRESULT
  ProcessInput : HRESULT
  GetOutputStreamInfo : HRESULT
  dwFlags : Nat
  cbSize : Nat
  cbAlignment : Nat
  ProcessOutput : HRESULT
  /-- What `ProcessOutput` leaves in `outputSamples.pSample` when it was passed null. -/
  pSample : Option Sample
  /-- Whether `ProcessOutput` leaves a non-null `outputSamples.pEvents`. -/
  pEvents : Bool

/-- One candidate handle (`IMFActivate`) returned by the registry. -/
structure Activate where
  ActivateObject : HRESULT
  transform : Transform

/-- Whether a candidate handle activates (source line 172: `!FAILED(...)`). -/
def Activate.activates (a : Activate) : Bool := !FAILED a.ActivateObject

/-- Outcomes of the calls made inside `ConvertIMFVideoSample`. -/
structure ConvertWorld where
  /-- Status of `MFTEnumEx` for a category, and the handles it returns (`count` is their number). -/
  MFTEnumEx : Category → HRESULT × List Activate
  MFCreateMediaType : HRESULT
  MFSetAttributeSize : HRESULT
  MFSetAttributeRatio : HRESULT
  outputSample : SampleWorld

/-- Outcomes of every collaborator call of one run of `LoadImageAsSample`. -/
structure World where
  MFGetAttributeSize : HRESULT
  targetWidth : Nat
  targetHeight : Nat
  GetGUID : HRESULT
  guidSubtype : GUID
  CoCreateInstance : HRESULT
  /-- Whether the caller's `imageStream` is non-null. -/
  imageStream : Bool
  loader : LoaderWorld
  outputSample : SampleWorld
  CopyPixels : HRESULT
  encoder : EncoderWorld
  Stat : HRESULT
  /-- The `cbSize.QuadPart` reported by `Stat`. -/
  cbSize : Nat
  GetHGlobalFromStream : HRESULT
  jpgSample : SampleWorld
  convert : ConvertWorld

/-! ## Control flow -/

/-- Program state threaded through a run: the calls made so far and the
    function-local static `s_Factory` of `_GetWIC` (true when already created). -/
structure St where
  trace : List Call
  s_Factory : Bool

/-- The state after one more call. -/
def St.push (s : St) (c : Call) : St := { s with trace := s.trace ++ [c] }

/-- How a piece of a function body ends. -/
inductive Flow (α : Type) where
  /-- Control continues (at the end of a body: the function returns `a`). -/
  | next (a : α)
  /-- The function returned `{}` / `nullptr`. -/
  | bail
  /-- A member function was called through a null pointer. -/
  | fault
  deriving DecidableEq

/-- A piece of a function body. -/
def M (α : Type) : Type := St → Flow α × St

def M.pure {α : Type} (a : α) : M α := fun s => (Flow.next a, s)

def M.bind {α β : Type} (m : M α) (f : α → M β) : M β := fun s =>
  match m s with
  | (Flow.next a, s') => f a s'
  | (Flow.bail, s') => (Flow.bail, s')
  | (Flow.fault, s') => (Flow.fault, s')

instance : Monad M where
  pure := M.pure
  bind := M.bind

/-- Record a call in the trace. -/
def invoke (c : Call) : M Unit := fun s => (Flow.next (), s.push c)

/-- The statement `return {};` / `return nullptr;`. -/
def bail {α : Type} : M α := fun s => (Flow.bail, s)

/-- A member call through a null pointer. -/
def fault {α : Type} : M α := fun s => (Flow.fault, s)

/-- Source lines 45-47: `OK_OR_BAIL(expr)` around a call returning an `HRESULT`. -/
def OK_OR_BAIL (c : Call) (hr : HRESULT) : M Unit := do
  invoke c
  if failed hr then bail else pure ()

/-- The statement `return p;` for a pointer `p` that may be null. -/
def ret {α : Type} (p : Option α) : M α :=
  match p with
  | some a => pure a
  | none => bail

/-- A `wil::scope_exit` guard: `c` runs when the enclosing scope is left, on every path. -/
def scope_exit {α : Type} (c : Call) (body : M α) : M α := fun s =>
  match body s with
  | (r, s') => (r, s'.push c)

/-- Calling one of the functions of the file: the callee's `return {}` reaches
    the caller as a null pointer. -/
def callFn {α : Type} (f : M α) : M (Option α) := fun s =>
  match f s with
  | (Flow.next a, s') => (Flow.next (some a), s')
  | (Flow.bail, s') => (Flow.next none, s')
  | (Flow.fault, s') => (Flow.fault, s')

/-! ## The functions of ImageLoading.cpp -/

/-- Source lines 49-62. The factory is created once and cached in the static `s_Factory`. -/
def _GetWIC (w : World) : M Unit := fun s =>
  if s.s_Factory then
    (Flow.next (), s)
  else
    (do
      OK_OR_BAIL Call.CoCreateInstance w.CoCreateInstance
      fun s' => (Flow.next (), { s' with s_Factory := true })) s

/-- Source lines 64-107. -/
def LoadAsRGB24BitmapWithSize (w : LoaderWorld) (targetWidth targetHeight : Nat) :
    M BitmapSource := do
  OK_OR_BAIL Call.CreateDecoderFromStream w.CreateDecoderFromStream
  OK_OR_BAIL Call.GetFrame w.GetFrame
  OK_OR_BAIL Call.GetSize w.GetSize
  let imageWidth := u32 w.imageWidth
  let imageHeight := u32 w.imageHeight
  -- Scale the image if required
  let bitmap ←
    (if targetWidth != imageWidth || targetHeight != imageHeight then do
      OK_OR_BAIL Call.CreateBitmapScaler w.CreateBitmapScaler
      OK_OR_BAIL (Call.InitializeScaler targetWidth targetHeight) w.InitializeScaler
      pure (BitmapSource.scaler targetWidth targetHeight)
    else
      pure BitmapSource.decodedFrame)
  OK_OR_BAIL Call.GetPixelFormat w.GetPixelFormat
  if w.pixelFormat != WICPixelFormatGUID.GUID_WICPixelFormat24bppBGR then do
    invoke Call.WICConvertBitmapSource
    if SUCCEEDED w.WICConvertBitmapSource then
      pure (BitmapSource.convertedBitmap bitmap)
    else
      pure bitmap
  else
    pure bitmap

/-- Source lines 109-140. The result stands for the encoded stream `encodedBitmap`. -/
def EncodeBitmapToContainer (w : EncoderWorld) (width height : Nat) : M Unit := do
  invoke Call.CreateEncoder
  (if !w.encoder then bail else pure ())
  OK_OR_BAIL Call.CreateStreamOnHGlobal w.CreateStreamOnHGlobal
  invoke Call.InitializeEncoder
  OK_OR_BAIL Call.CreateNewFrame w.CreateNewFrame
  OK_OR_BAIL Call.InitializeFrame w.InitializeFrame
  OK_OR_BAIL Call.SetPixelFormat w.SetPixelFormat
  OK_OR_BAIL (Call.SetSize width height) w.SetSize
  OK_OR_BAIL Call.WriteSource w.WriteSource
  OK_OR_BAIL Call.CommitFrame w.CommitFrame
  OK_OR_BAIL Call.CommitEncoder w.CommitEncoder
  pure ()

/-- Source lines 154-156. -/
def transformerCategories : List Category :=
  [Category.MFT_CATEGORY_VIDEO_PROCESSOR, Category.MFT_CATEGORY_VIDEO_DECODER,
   Category.MFT_CATEGORY_VIDEO_ENCODER]

/-- Source lines 158-165: the loop over the categories. The result is the array
    `ppVDActivate` (`count` is its length); it stays empty when no category has a candidate. -/
def enumerate (w : ConvertWorld) : List Category → M (List Activate)
  | [] => pure []
  | c :: cs => do
    OK_OR_BAIL (Call.MFTEnumEx c) (w.MFTEnumEx c).1
    if (w.MFTEnumEx c).2.length != 0 then
      pure (w.MFTEnumEx c).2
    else
      enumerate w cs

/-- Source lines 170-177: the loop over the candidates, from index `i` on.
    `videoTransformer` is non-null exactly when `videoDecoderActivated` is set; it
    is kept with the index of the candidate it came from. -/
def activate : Nat → List Activate → Option (Nat × Transform) → M (Option (Nat × Transform))
  | _, [], videoTransformer => pure videoTransformer
  | i, a :: rest, videoTransformer => do
    let videoTransformer' ←
      (if videoTransformer.isNone then do
        invoke (Call.ActivateObject i)
        if a.activates then
          pure (some (i, a.transform))
        else
          pure none
      else
        pure videoTransformer)
    invoke (Call.Release i)
    activate (i + 1) rest videoTransformer'

/-- Source line 209: `dwFlags & MFT_OUTPUT_STREAM_PROVIDES_SAMPLES`, as a `bool`. -/
def onlyProvidesSamples (dwFlags : Nat) : Bool :=
  (dwFlags &&& MFT_OUTPUT_STREAM_PROVIDES_SAMPLES) != 0

/-- Source line 210: `dwFlags & MFT_OUTPUT_STREAM_CAN_PROVIDE_SAMPLES`, as a `bool`. -/
def canProvideSamples (dwFlags : Nat) : Bool :=
  (dwFlags &&& MFT_OUTPUT_STREAM_CAN_PROVIDE_SAMPLES) != 0

/-- Source line 213: `dwFlags & MFT_PROCESS_OUTPUT_DISCARD_WHEN_NO_BUFFER`, as a condition. -/
def discardWhenNoBuffer (dwFlags : Nat) : Bool :=
  (dwFlags &&& MFT_PROCESS_OUTPUT_DISCARD_WHEN_NO_BUFFER) != 0

/-- Source lines 211-213. -/
def mustAllocateSample (dwFlags : Nat) : Bool :=
  (!onlyProvidesSamples dwFlags && !canProvideSamples dwFlags) ||
    (!onlyProvidesSamples dwFlags && discardWhenNoBuffer dwFlags)

/-- Source lines 218-230: allocation of the output sample by the caller. -/
def allocateOutputSample (w : SampleWorld) (cbSize cbAlignment : Nat) : M Sample := do
  OK_OR_BAIL Call.MFCreateSample w.MFCreateSample
  let outputSample := Sample.fresh
  OK_OR_BAIL (Call.SetSampleDuration 333333) w.SetSampleDuration
  let outputSample := { outputSample with duration := some 333333 }
  OK_OR_BAIL (Call.SetSampleTime 1) w.SetSampleTime
  let outputSample := { outputSample with time := some 1 }
  OK_OR_BAIL (Call.MFCreateAlignedMemoryBuffer cbSize (sub32 cbAlignment 1))
    w.MFCreateAlignedMemoryBuffer
  let outputMediaBuffer : MediaBuffer :=
    { cbMaxLength := cbSize, fAlignmentFlags := sub32 cbAlignment 1, cbCurrentLength := none }
  OK_OR_BAIL (Call.SetCurrentLength cbSize) w.SetCurrentLength
  let outputMediaBuffer := { outputMediaBuffer with cbCurrentLength := some cbSize }
  OK_OR_BAIL Call.AddBuffer w.AddBuffer
  pure { outputSample with buffers := outputSample.buffers ++ [outputMediaBuffer] }

/-- Source lines 190-243: the part of `ConvertIMFVideoSample` that drives the
    activated transform `t` (candidate number `k`). -/
def driveTransform (w : ConvertWorld) (k : Nat) (t : Transform) (width height : Nat) :
    M Sample := do
  -- Set input/output types for the decoder
  OK_OR_BAIL Call.MFCreateMediaType w.MFCreateMediaType
  invoke Call.SetGUID
  invoke Call.SetGUID
  invoke Call.SetUINT32
  invoke Call.SetUINT32
  OK_OR_BAIL (Call.MFSetAttributeSize width height) w.MFSetAttributeSize
  OK_OR_BAIL (Call.MFSetAttributeRatio width height) w.MFSetAttributeRatio
  OK_OR_BAIL (Call.SetInputType k) t.SetInputType
  OK_OR_BAIL (Call.SetOutputType k) t.SetOutputType
  -- Process the input sample
  OK_OR_BAIL (Call.ProcessInput k) t.ProcessInput
  -- Check whether we need to allocate output sample and buffer ourselves
  OK_OR_BAIL (Call.GetOutputStreamInfo k) t.GetOutputStreamInfo
  -- If so, do the allocation
  let pSample : Option Sample ←
    (if mustAllocateSample (u32 t.dwFlags) then do
      let outputSample ← allocateOutputSample w.outputSample (u32 t.cbSize) (u32 t.cbAlignment)
      pure (some outputSample)
    else
      pure none)
  -- Finally, produce the output sample
  invoke (Call.ProcessOutput k)
  (if failed t.ProcessOutput then
    invoke (Call.LOG "Failed to convert image frame")
  else
    pure ())
  let pSample := (match pSample with
    | some outputSample => some outputSample
    | none => t.pSample)
  (if t.pEvents then
    invoke Call.ReleaseEvents
  else
    pure ())
  ret pSample

/-- Source lines 142-244. The input sample itself plays no part in the control flow. -/
def ConvertIMFVideoSample (w : ConvertWorld) (width height : Nat) : M Sample := do
  invoke Call.GetGUID
  let ppVDActivate ← enumerate w transformerCategories
  let videoTransformer ← activate 0 ppVDActivate none
  (if ppVDActivate.length != 0 then
    invoke Call.CoTaskMemFree
  else
    pure ())
  match videoTransformer with
  | none => do
    invoke (Call.LOG "No converter avialable for the selected format")
    bail
  | some (k, t) =>
    scope_exit (Call.MFShutdownObject k) (driveTransform w k t width height)

/-- Source lines 305-334: the part of the MJPG branch that runs once
    `jpgStream` is known to be dereferenced. -/
def wrapJpgStream (w : World) : M Sample := do
  -- Obtain stream size and lock its memory pointer
  OK_OR_BAIL Call.Stat w.Stat
  let jpgStreamSize := u64 w.cbSize
  OK_OR_BAIL Call.GetHGlobalFromStream w.GetHGlobalFromStream
  invoke Call.GlobalLock
  -- `unlockJpgStreamMemory` is live from here up to its `reset()`
  let inputMediaBuffer : MediaBuffer ← scope_exit Call.GlobalUnlock (do
    -- Create a sample from the input image buffer
    OK_OR_BAIL Call.MFCreateSample w.jpgSample.MFCreateSample
    OK_OR_BAIL (Call.MFCreateAlignedMemoryBuffer (u32 jpgStreamSize) MF_64_BYTE_ALIGNMENT)
      w.jpgSample.MFCreateAlignedMemoryBuffer
    OK_OR_BAIL Call.Lock w.jpgSample.Lock
    let max_length := u32 w.jpgSample.max_length
    (if max_length < jpgStreamSize then bail else pure ())
    invoke (Call.copy jpgStreamSize)
    pure { cbMaxLength := u32 jpgStreamSize, fAlignmentFlags := MF_64_BYTE_ALIGNMENT,
           cbCurrentLength := none })
  let jpgSample := Sample.fresh
  OK_OR_BAIL Call.Unlock w.jpgSample.Unlock
  OK_OR_BAIL (Call.SetCurrentLength (u32 jpgStreamSize)) w.jpgSample.SetCurrentLength
  let inputMediaBuffer := { inputMediaBuffer with cbCurrentLength := some (u32 jpgStreamSize) }
  OK_OR_BAIL Call.AddBuffer w.jpgSample.AddBuffer
  pure { jpgSample with buffers := jpgSample.buffers ++ [inputMediaBuffer] }

/-- Source line 279: `const DWORD nPixelBytes = targetWidth * targetHeight * 3;`. -/
def nPixelBytes (targetWidth targetHeight : Nat) : Nat :=
  mul32 (mul32 targetWidth targetHeight) 3

/-- Source lines 273-291: "First, let's create a sample containing RGB24 bitmap". -/
def createRGB24Sample (w : World) (targetWidth targetHeight : Nat) : M Sample := do
  OK_OR_BAIL Call.MFCreateSample w.outputSample.MFCreateSample
  let outputSample := Sample.fresh
  OK_OR_BAIL (Call.SetSampleDuration 333333) w.outputSample.SetSampleDuration
  let outputSample := { outputSample with duration := some 333333 }
  OK_OR_BAIL (Call.SetSampleTime 1) w.outputSample.SetSampleTime
  let outputSample := { outputSample with time := some 1 }
  let nPixelBytes := nPixelBytes targetWidth targetHeight
  OK_OR_BAIL (Call.MFCreateAlignedMemoryBuffer nPixelBytes MF_64_BYTE_ALIGNMENT)
    w.outputSample.MFCreateAlignedMemoryBuffer
  let outputMediaBuffer : MediaBuffer :=
    { cbMaxLength := nPixelBytes, fAlignmentFlags := MF_64_BYTE_ALIGNMENT,
      cbCurrentLength := none }
  let stride := mul32 3 targetWidth
  OK_OR_BAIL Call.Lock w.outputSample.Lock
  OK_OR_BAIL (Call.CopyPixels stride nPixelBytes) w.CopyPixels
  OK_OR_BAIL Call.Unlock w.outputSample.Unlock
  OK_OR_BAIL (Call.SetCurrentLength nPixelBytes) w.outputSample.SetCurrentLength
  let outputMediaBuffer := { outputMediaBuffer with cbCurrentLength := some nPixelBytes }
  OK_OR_BAIL Call.AddBuffer w.outputSample.AddBuffer
  pure { outputSample with buffers := outputSample.buffers ++ [outputMediaBuffer] }

/-- Source lines 293-342: the branch on the requested subtype, once the RGB24
    sample `outputSample` exists. -/
def convertToSubtype (w : World) (targetWidth targetHeight : Nat) (outputSample : Sample) :
    M Sample :=
  if w.guidSubtype = GUID.MFVideoFormat_RGB24 then
    pure outputSample
  -- Special case for mjpg, since we need to use jpg container for it
  else if w.guidSubtype = GUID.MFVideoFormat_MJPG then do
    let jpgStream ← callFn (EncodeBitmapToContainer w.encoder targetWidth targetHeight)
    -- `jpgStream->Stat(...)`: a member call through `jpgStream`, null or not
    (if jpgStream.isNone then fault else pure ())
    wrapJpgStream w
  else do
    -- Now we are ready to convert it to the requested media type
    let converted ← callFn (ConvertIMFVideoSample w.convert targetWidth targetHeight)
    ret converted

/-- Source lines 249-271: target geometry and subtype, the WIC factory, the bitmap. -/
def loadSource (w : World) : M BitmapSource := do
  OK_OR_BAIL Call.MFGetAttributeSize w.MFGetAttributeSize
  OK_OR_BAIL Call.GetGUID w.GetGUID
  let pWIC ← callFn (_GetWIC w)
  (if pWIC.isNone then do
    invoke (Call.LOG "Failed to create IWICImagingFactory")
    bail
  else
    pure ())
  (if !w.imageStream then bail else pure ())
  let srcImageBitmap ←
    callFn (LoadAsRGB24BitmapWithSize w.loader (u32 w.targetWidth) (u32 w.targetHeight))
  ret srcImageBitmap

/-- Source lines 246-343. -/
def LoadImageAsSample (w : World) : M Sample := do
  let _srcImageBitmap ← loadSource w
  let targetWidth := u32 w.targetWidth
  let targetHeight := u32 w.targetHeight
  let outputSample ← createRGB24Sample w targetWidth targetHeight
  convertToSubtype w targetWidth targetHeight outputSample

/-! ## Observing a run -/

/-- Calls that only `EncodeBitmapToContainer` makes. -/
def Call.isContainerEncoderCall : Call → Bool
  | Call.CreateEncoder => true
  | Call.CreateStreamOnHGlobal => true
  | Call.InitializeEncoder => true
  | Call.CreateNewFrame => true
  | Call.InitializeFrame => true
  | Call.SetPixelFormat => true
  | Call.SetSize _ _ => true
  | Call.WriteSource => true
  | Call.CommitFrame => true
  | Call.CommitEncoder => true
  | _ => false

/-- Calls on the transform registry, on a candidate handle or on a transform:
    only `ConvertIMFVideoSample` makes them. -/
def Call.isTransformCall : Call → Bool
  | Call.MFTEnumEx _ => true
  | Call.ActivateObject _ => true
  | Call.Release _ => true
  | Call.CoTaskMemFree => true
  | Call.MFShutdownObject _ => true
  | Call.MFCreateMediaType => true
  | Call.SetGUID => true
  | Call.SetUINT32 => true
  | Call.MFSetAttributeSize _ _ => true
  | Call.MFSetAttributeRatio _ _ => true
  | Call.SetInputType _ => true
  | Call.SetOutputType _ => true
  | Call.ProcessInput _ => true
  | Call.GetOutputStreamInfo _ => true
  | Call.ProcessOutput _ => true
  | Call.ReleaseEvents => true
  | _ => false

/-- The category of a registry query. -/
def Call.category? : Call → Option Category
  | Call.MFTEnumEx c => some c
  | _ => none

/-- The candidate index of an activation attempt. -/
def Call.activated? : Call → Option Nat
  | Call.ActivateObject i => some i
  | _ => none

/-- The candidate index of a handle release. -/
def Call.released? : Call → Option Nat
  | Call.Release i => some i
  | _ => none

/-- The candidate index carried by a call on the activated transform. -/
def Call.transform? : Call → Option Nat
  | Call.MFShutdownObject i => some i
  | Call.SetInputType i => some i
  | Call.SetOutputType i => some i
  | Call.ProcessInput i => some i
  | Call.GetOutputStreamInfo i => some i
  | Call.ProcessOutput i => some i
  | _ => none

/-- The state at the start of a run: nothing called yet; `s_Factory` tells
    whether an earlier run has already created the WIC factory. -/
def St.start (s_Factory : Bool) : St := { trace := [], s_Factory := s_Factory }

/-- The categories queried, in order. -/
def queried (tr : List Call) : List Category := tr.filterMap Call.category?

/-- The candidate indices on which activation was attempted, in order. -/
def attempted (tr : List Call) : List Nat := tr.filterMap Call.activated?

/-- The candidate indices whose handle was released, in order. -/
def released (tr : List Call) : List Nat := tr.filterMap Call.released?

/-- The calls made by a run of `ConvertIMFVideoSample`, in order. -/
def ConvertIMFVideoSample.calls (w : ConvertWorld) (width height : Nat) (b : Bool) : List Call :=
  (ConvertIMFVideoSample w width height (St.start b)).2.trace

/-- The size and alignment of a buffer allocation. -/
def Call.allocated? : Call → Option (Nat × Nat)
  | Call.MFCreateAlignedMemoryBuffer cb align => some (cb, align)
  | _ => none

/-- The stride and byte count of a pixel copy. -/
def Call.copied? : Call → Option (Nat × Nat)
  | Call.CopyPixels stride cb => some (stride, cb)
  | _ => none

/-- The byte count of a current-length update. -/
def Call.length? : Call → Option Nat
  | Call.SetCurrentLength cb => some cb
  | _ => none

/-- The buffer allocations (size, alignment), in order. -/
def allocations (tr : List Call) : List (Nat × Nat) := tr.filterMap Call.allocated?

/-- The pixel copies (stride, byte count), in order. -/
def copies (tr : List Call) : List (Nat × Nat) := tr.filterMap Call.copied?

/-- The current lengths set on buffers, in order. -/
def lengths (tr : List Call) : List Nat := tr.filterMap Call.length?

/-- The calls made by a run of `LoadImageAsSample`, in order. -/
def LoadImageAsSample.calls (w : World) (b : Bool) : List Call :=
  (LoadImageAsSample w (St.start b)).2.trace

/-- The outcome of `m`, and the calls it adds, do not depend on the calls made before. -/
def framed {α : Type} (m : M α) : Prop :=
  ∀ s : St, m s =
    ((m { trace := [], s_Factory := s.s_Factory }).1,
     { trace := s.trace ++ (m { trace := [], s_Factory := s.s_Factory }).2.trace,
       s_Factory := (m { trace := [], s_Factory := s.s_Factory }).2.s_Factory })

/-- Postcondition of a run: `wp m Q s` says that the run of `m` from state `s` ends
    with an outcome and a state that satisfy `Q`. -/
def wp {α : Type} (m : M α) (Q : Flow α → St → Prop) (s : St) : Prop :=
  Q (m s).1 (m s).2

/-! ## Concrete collaborator outcomes -/

/-- Every sample-building call succeeds; `Lock` reports `max_length`. -/
def SampleWorld.ok (max_length : Nat) : SampleWorld :=
  { MFCreateSample := S_OK, SetSampleDuration := S_OK, SetSampleTime := S_OK,
    MFCreateAlignedMemoryBuffer := S_OK, Lock := S_OK, max_length := max_length,
    Unlock := S_OK, SetCurrentLength := S_OK, AddBuffer := S_OK }

/-- The image decodes to `imageWidth` x `imageHeight`, already in 24bpp BGR. -/
def LoaderWorld.ok (imageWidth imageHeight : Nat) : LoaderWorld :=
  { CreateDecoderFromStream := S_OK, GetFrame := S_OK, GetSize := S_OK,
    imageWidth := imageWidth, imageHeight := imageHeight,
    CreateBitmapScaler := S_OK, InitializeScaler := S_OK, GetPixelFormat := S_OK,
    pixelFormat := WICPixelFormatGUID.GUID_WICPixelFormat24bppBGR,
    WICConvertBitmapSource := S_OK }

/-- Every encoder call succeeds. -/
def EncoderWorld.ok : EncoderWorld :=
  { encoder := true, CreateStreamOnHGlobal := S_OK, CreateNewFrame := S_OK,
    InitializeFrame := S_OK, SetPixelFormat := S_OK, SetSize := S_OK,
    WriteSource := S_OK, CommitFrame := S_OK, CommitEncoder := S_OK }

/-- A transform whose calls all succeed, with the given stream info, and which
    hands out no sample and no event of its own. -/
def Transform.ok (dwFlags cbSize cbAlignment : Nat) : Transform :=
  { SetInputType := S_OK, SetOutputType := S_OK, ProcessInput := S_OK,
    GetOutputStreamInfo := S_OK, dwFlags := dwFlags, cbSize := cbSize,
    cbAlignment := cbAlignment, ProcessOutput := S_OK, pSample := none, pEvents := false }

/-- A registry that answers every query with success and the candidates `acts c`. -/
def ConvertWorld.ok (acts : Category → List Activate) : ConvertWorld :=
  { MFTEnumEx := fun c => (S_OK, acts c), MFCreateMediaType := S_OK,
    MFSetAttributeSize := S_OK, MFSetAttributeRatio := S_OK,
    outputSample := SampleWorld.ok 0 }

/-- Every call succeeds: a `width` x `height` target of the given subtype, a
    source image of the same size, an encoded stream of `cbSize` bytes. -/
def World.ok (width height : Nat) (subtype : GUID) (cbSize : Nat)
    (acts : Category → List Activate) : World :=
  { MFGetAttributeSize := S_OK, targetWidth := width, targetHeight := height,
    GetGUID := S_OK, guidSubtype := subtype, CoCreateInstance := S_OK,
    imageStream := true, loader := LoaderWorld.ok width height,
    outputSample := SampleWorld.ok 0, CopyPixels := S_OK, encoder := EncoderWorld.ok,
    Stat := S_OK, cbSize := cbSize, GetHGlobalFromStream := S_OK,
    jpgSample := SampleWorld.ok cbSize, convert := ConvertWorld.ok acts }

/-- A registry whose processor category holds the single candidate `t`. -/
def oneProcessor (t : Transform) (c : Category) : List Activate :=
  if c = Category.MFT_CATEGORY_VIDEO_PROCESSOR then
    [{ ActivateObject := S_OK, transform := t }]
  else
    []

/-- A 4 x 2 target of a subtype that needs a transform; the one transform found
    asks the caller to allocate (flags 0, 64 bytes, 16-byte boundary) and its
    `ProcessOutput` fails. -/
def World.processOutputFails : World :=
  World.ok 4 2 (GUID.other 0) 0
    (oneProcessor { Transform.ok 0 64 16 with ProcessOutput := E_FAIL })

/-- A 4 x 2 MJPG target for which `CreateEncoder` yields no encoder. -/
def World.noEncoder : World :=
  { World.ok 4 2 GUID.MFVideoFormat_MJPG 1000 (fun _ => []) with
    encoder := { EncoderWorld.ok with encoder := false } }

/-- A 4 x 2 MJPG target; every call succeeds and the encoded stream has 1000 bytes. -/
def World.mjpg : World := World.ok 4 2 GUID.MFVideoFormat_MJPG 1000 (fun _ => [])

/-- A 4 x 2 target of a subtype that needs a transform; the one transform found
    asks the caller to allocate 64 bytes and declares no alignment (`cbAlignment = 0`). -/
def World.noAlignment : World :=
  World.ok 4 2 (GUID.other 0) 0 (oneProcessor (Transform.ok 0 64 0))

/-- A 65536 x 65536 RGB24 target; every call succeeds. -/
def World.huge : World := World.ok 65536 65536 GUID.MFVideoFormat_RGB24 0 (fun _ => [])

/-- A 4 x 2 target of a subtype that needs a transform, with an empty registry. -/
def World.noConverter : World := World.ok 4 2 (GUID.other 0) 0 (fun _ => [])

/-- A registry with no processor and three decoders: the first fails to
    activate, the second activates (with the success code `S_FALSE`), the third
    would activate too. -/
def decoderCandidates (c : Category) : List Activate :=
  if c = Category.MFT_CATEGORY_VIDEO_DECODER then
    [{ ActivateObject := E_FAIL, transform := Transform.ok 0 64 16 },
     { ActivateObject := S_FALSE, transform := Transform.ok 0 64 16 },
     { ActivateObject := S_OK, transform := Transform.ok 0 64 16 }]
  else
    []

/-- A 4 x 2 target of a subtype that needs a transform, with three decoders registered. -/
def World.threeDecoders : World := World.ok 4 2 (GUID.other 0) 0 decoderCandidates

/-- A 4 x 2 RGB24 target; every call succeeds. -/
def World.rgb24 : World := World.ok 4 2 GUID.MFVideoFormat_RGB24 0 (fun _ => [])

/-! ## Reasoning about control flow -/

theorem bind_apply {α β : Type} (m : M α) (f : α → M β) (s : St) :
    (m >>= f) s = match m s with
      | (Flow.next a, s') => f a s'
      | (Flow.bail, s') => (Flow.bail, s')
      | (Flow.fault, s') => (Flow.fault, s') := rfl

theorem pure_apply {α : Type} (a : α) (s : St) : (pure a : M α) s = (Flow.next a, s) := rfl

theorem invoke_apply (c : Call) (s : St) : invoke c s = (Flow.next (), s.push c) := rfl

theorem bail_apply {α : Type} (s : St) : (bail : M α) s = (Flow.bail, s) := rfl

theorem fault_apply {α : Type} (s : St) : (fault : M α) s = (Flow.fault, s) := rfl

theorem OK_OR_BAIL_apply (c : Call) (hr : HRESULT) (s : St) :
    OK_OR_BAIL c hr s =
      if failed hr then (Flow.bail, s.push c) else (Flow.next (), s.push c) := by
  cases h : failed hr <;> simp [OK_OR_BAIL, bind_apply, invoke, h, bail, pure_apply]

theorem wp_pure {α : Type} (a : α) (Q : Flow α → St → Prop) (s : St) :
    wp (pure a) Q s ↔ Q (Flow.next a) s := Iff.rfl

theorem wp_bind {α β : Type} (m : M α) (f : α → M β) (Q : Flow β → St → Prop) (s : St) :
    wp (m >>= f) Q s ↔
      wp m (fun r s' => match r with
        | Flow.next a => wp (f a) Q s'
        | Flow.bail => Q Flow.bail s'
        | Flow.fault => Q Flow.fault s') s := by
  unfold wp
  rw [bind_apply]
  rcases h : m s with ⟨r, s'⟩
  cases r <;> simp

theorem wp_invoke (c : Call) (Q : Flow Unit → St → Prop) (s : St) :
    wp (invoke c) Q s ↔ Q (Flow.next ()) (s.push c) := Iff.rfl

theorem wp_bail {α : Type} (Q : Flow α → St → Prop) (s : St) :
    wp (bail : M α) Q s ↔ Q Flow.bail s := Iff.rfl

theorem wp_fault {α : Type} (Q : Flow α → St → Prop) (s : St) :
    wp (fault : M α) Q s ↔ Q Flow.fault s := Iff.rfl

theorem wp_OK_OR_BAIL (c : Call) (hr : HRESULT) (Q : Flow Unit → St → Prop) (s : St) :
    wp (OK_OR_BAIL c hr) Q s ↔
      (failed hr = true → Q Flow.bail (s.push c)) ∧
      (failed hr = false → Q (Flow.next ()) (s.push c)) := by
  unfold wp
  rw [OK_OR_BAIL_apply]
  cases h : failed hr <;> simp

theorem wp_ite {α : Type} (c : Prop) [Decidable c] (a b : M α) (Q : Flow α → St → Prop)
    (s : St) : wp (if c then a else b) Q s ↔ (c → wp a Q s) ∧ (¬ c → wp b Q s) := by
  by_cases h : c <;> simp [h]

theorem wp_callFn {α : Type} (f : M α) (Q : Flow (Option α) → St → Prop) (s : St) :
    wp (callFn f) Q s ↔
      wp f (fun r s' => match r with
        | Flow.next a => Q (Flow.next (some a)) s'
        | Flow.bail => Q (Flow.next none) s'
        | Flow.fault => Q Flow.fault s') s := by
  unfold wp callFn
  rcases h : f s with ⟨r, s'⟩
  cases r <;> simp

theorem wp_ret {α : Type} (p : Option α) (Q : Flow α → St → Prop) (s : St) :
    wp (ret p) Q s ↔
      (∀ a, p = some a → Q (Flow.next a) s) ∧ (p = none → Q Flow.bail s) := by
  cases p <;> simp [ret, wp_pure, wp_bail]

theorem wp_scope_exit {α : Type} (c : Call) (body : M α) (Q : Flow α → St → Prop) (s : St) :
    wp (scope_exit c body) Q s ↔ wp body (fun r s' => Q r (s'.push c)) s := by
  unfold wp scope_exit
  rcases h : body s with ⟨r, s'⟩
  simp

theorem wp_mono {α : Type} (m : M α) (P Q : Flow α → St → Prop) (s : St)
    (h : ∀ r s', P r s' → Q r s') (hP : wp m P s) : wp m Q s := h _ _ hP

theorem wp_bind_of_forall {α β : Type} (m : M α) (f : α → M β) (Q : Flow β → St → Prop)
    (s : St) (hnext : ∀ a s', wp (f a) Q s') (hbail : ∀ s', Q Flow.bail s')
    (hfault : ∀ s', Q Flow.fault s') : wp (m >>= f) Q s := by
  rw [wp_bind]
  unfold wp
  rcases h : m s with ⟨r, s'⟩
  cases r
  · exact hnext _ _
  · exact hbail _
  · exact hfault _

theorem wp_GetWIC (w : World) (Q : Flow Unit → St → Prop) (s : St) :
    wp (_GetWIC w) Q s ↔
      (s.s_Factory = true → Q (Flow.next ()) s) ∧
      (s.s_Factory = false → failed w.CoCreateInstance = true →
        Q Flow.bail (s.push Call.CoCreateInstance)) ∧
      (s.s_Factory = false → failed w.CoCreateInstance = false →
        Q (Flow.next ()) { (s.push Call.CoCreateInstance) with s_Factory := true }) := by
  unfold wp _GetWIC
  cases h : s.s_Factory <;> cases h2 : failed w.CoCreateInstance <;>
    simp [bind_apply, OK_OR_BAIL_apply, h2]

theorem mem_push (s : St) (c d : Call) : c ∈ (s.push d).trace ↔ c ∈ s.trace ∨ c = d := by
  simp [St.push]

theorem forall_mem_push (s : St) (d : Call) (P : Call → Prop) :
    (∀ c ∈ (s.push d).trace, P c) ↔ (∀ c ∈ s.trace, P c) ∧ P d := by
  simp only [mem_push]
  constructor
  · intro h
    exact ⟨fun c hc => h c (Or.inl hc), h d (Or.inr rfl)⟩
  · rintro ⟨h1, h2⟩ c (hc | rfl)
    · exact h1 c hc
    · exact h2

theorem trace_setFactory (s : St) (b : Bool) :
    ({ s with s_Factory := b } : St).trace = s.trace := rfl

theorem wp_of_eq {α : Type} (m : M α) (s : St) (r : Flow α) (s' : St) (h : m s = (r, s'))
    (Q : Flow α → St → Prop) : wp m Q s ↔ Q r s' := by
  unfold wp
  rw [h]

/-! ## Calls made before the branch on the subtype -/

theorem loadSource_calls (w : World) (P : Call → Prop)
    (hP : ∀ c, c.isContainerEncoderCall = false → c.isTransformCall = false → P c)
    (s : St) (hs : ∀ c ∈ s.trace, P c) :
    wp (loadSource w) (fun r s' => r ≠ Flow.fault ∧ ∀ c ∈ s'.trace, P c) s := by
  simp only [loadSource, LoadAsRGB24BitmapWithSize, wp_bind, wp_OK_OR_BAIL, wp_callFn,
    wp_GetWIC, wp_ite, wp_pure, wp_bail, wp_invoke, wp_ret, forall_mem_push, trace_setFactory]
  have hs' : (∀ c ∈ s.trace, P c) ↔ True := iff_true_intro hs
  simp [hs', hP, Call.isContainerEncoderCall, Call.isTransformCall]

theorem createRGB24Sample_calls (w : World) (tw th : Nat) (P : Call → Prop)
    (hP : ∀ c, c.isContainerEncoderCall = false → c.isTransformCall = false → P c)
    (s : St) (hs : ∀ c ∈ s.trace, P c) :
    wp (createRGB24Sample w tw th)
      (fun r s' => r ≠ Flow.fault ∧ ∀ c ∈ s'.trace, P c) s := by
  simp only [createRGB24Sample, wp_bind, wp_OK_OR_BAIL, wp_pure, forall_mem_push]
  have hs' : (∀ c ∈ s.trace, P c) ↔ True := iff_true_intro hs
  simp [hs', hP, Call.isContainerEncoderCall, Call.isTransformCall]

theorem loadSource_succeeds (w : World) (s : St)
    (hsize : failed w.MFGetAttributeSize = false)
    (hguid : failed w.GetGUID = false)
    (hfactory : s.s_Factory = false → failed w.CoCreateInstance = false)
    (hstream : w.imageStream = true)
    (hdecoder : failed w.loader.CreateDecoderFromStream = false)
    (hframe : failed w.loader.GetFrame = false)
    (hgetsize : failed w.loader.GetSize = false)
    (hscaler : u32 w.targetWidth ≠ u32 w.loader.imageWidth ∨
        u32 w.targetHeight ≠ u32 w.loader.imageHeight →
      failed w.loader.CreateBitmapScaler = false ∧ failed w.loader.InitializeScaler = false)
    (hformat : failed w.loader.GetPixelFormat = false) :
    wp (loadSource w) (fun r _ => ∃ bmp, r = Flow.next bmp) s := by
  simp only [loadSource, LoadAsRGB24BitmapWithSize, wp_bind, wp_OK_OR_BAIL, wp_callFn,
    wp_GetWIC, wp_ite, wp_pure, wp_bail, wp_invoke, wp_ret, hsize, hguid, hstream, hdecoder,
    hframe, hgetsize, hformat]
  simp only [St.push]
  by_cases hsc : u32 w.targetWidth ≠ u32 w.loader.imageWidth ∨
        u32 w.targetHeight ≠ u32 w.loader.imageHeight
  · obtain ⟨h1, h2⟩ := hscaler hsc
    simp [h1, h2, hsc]
    intro h
    simp [hfactory h]
  · simp [hsc]
    intro h
    simp [hfactory h]

/-! ## The byte length of the RGB24 buffer -/

theorem nPixelBytes_eq (tw th : Nat) : nPixelBytes tw th = (tw * th * 3) % 4294967296 := by
  simp [nPixelBytes, mul32, u32, Nat.mul_mod, Nat.mod_mod]

/-- C3, as stated, fails: for the 32-bit target size 65536 x 65536 the exact
    product `65536 * 65536 * 3` is not zero, yet `nPixelBytes` is `0`, and the
    RGB24 sample that `LoadImageAsSample` returns has a buffer allocated with 0
    bytes and a current length of 0. -/
theorem nPixelBytes_truncated_at_65536 :
    65536 * 65536 * 3 ≠ 0 ∧
    nPixelBytes (u32 65536) (u32 65536) = 0 ∧
    (LoadImageAsSample World.huge (St.start false)).1 =
      Flow.next { duration := some 333333, time := some 1,
                  buffers := [{ cbMaxLength := 0, fAlignmentFlags := MF_64_BYTE_ALIGNMENT,
                                cbCurrentLength := some 0 }] } := by
  refine ⟨by decide, by decide, by decide⟩

/-- Whenever `LoadImageAsSample` returns the RGB24 sample, its one buffer was
    allocated with `nPixelBytes` bytes, `nPixelBytes` bytes were copied into it
    and `nPixelBytes` is its current length. -/
theorem LoadImageAsSample_rgb24_buffer (w : World) (b : Bool) (smp : Sample)
    (hsub : w.guidSubtype = GUID.MFVideoFormat_RGB24)
    (h : (LoadImageAsSample w (St.start b)).1 = Flow.next smp) :
    smp.buffers =
      [{ cbMaxLength := nPixelBytes (u32 w.targetWidth) (u32 w.targetHeight),
         fAlignmentFlags := MF_64_BYTE_ALIGNMENT,
         cbCurrentLength := some (nPixelBytes (u32 w.targetWidth) (u32 w.targetHeight)) }] ∧
    Call.MFCreateAlignedMemoryBuffer (nPixelBytes (u32 w.targetWidth) (u32 w.targetHeight))
        MF_64_BYTE_ALIGNMENT ∈ (LoadImageAsSample w (St.start b)).2.trace ∧
    Call.CopyPixels (mul32 3 (u32 w.targetWidth))
        (nPixelBytes (u32 w.targetWidth) (u32 w.targetHeight)) ∈
      (LoadImageAsSample w (St.start b)).2.trace ∧
    Call.SetCurrentLength (nPixelBytes (u32 w.targetWidth) (u32 w.targetHeight)) ∈
      (LoadImageAsSample w (St.start b)).2.trace ∧
    nPixelBytes (u32 w.targetWidth) (u32 w.targetHeight) =
      (u32 w.targetWidth * u32 w.targetHeight * 3) % 4294967296 ∧
    (u32 w.targetWidth * u32 w.targetHeight * 3 < 4294967296 →
      nPixelBytes (u32 w.targetWidth) (u32 w.targetHeight) =
        u32 w.targetWidth * u32 w.targetHeight * 3) ∧
    (u32 w.targetWidth * u32 w.targetHeight * 3 < 4294967296 →
      0 < u32 w.targetWidth → 0 < u32 w.targetHeight →
      nPixelBytes (u32 w.targetWidth) (u32 w.targetHeight) ≠ 0) := by
  have key : wp (LoadImageAsSample w) (fun r s' => ∀ smp, r = Flow.next smp →
      smp.buffers =
        [{ cbMaxLength := nPixelBytes (u32 w.targetWidth) (u32 w.targetHeight),
           fAlignmentFlags := MF_64_BYTE_ALIGNMENT,
           cbCurrentLength := some (nPixelBytes (u32 w.targetWidth) (u32 w.targetHeight)) }] ∧
      Call.MFCreateAlignedMemoryBuffer (nPixelBytes (u32 w.targetWidth) (u32 w.targetHeight))
          MF_64_BYTE_ALIGNMENT ∈ s'.trace ∧
      Call.CopyPixels (mul32 3 (u32 w.targetWidth))
          (nPixelBytes (u32 w.targetWidth) (u32 w.targetHeight)) ∈ s'.trace ∧
      Call.SetCurrentLength (nPixelBytes (u32 w.targetWidth) (u32 w.targetHeight)) ∈
        s'.trace) (St.start b) := by
    unfold LoadImageAsSample
    refine wp_bind_of_forall _ _ _ _ (fun _ s1 => ?_) (by simp) (by simp)
    simp only [createRGB24Sample, convertToSubtype, hsub, if_true, wp_bind, wp_OK_OR_BAIL,
      wp_pure]
    simp [mem_push, Sample.fresh]
  obtain ⟨h1, h2, h3, h4⟩ := key smp h
  refine ⟨h1, h2, h3, h4, nPixelBytes_eq _ _, ?_, ?_⟩
  · intro hfit
    rw [nPixelBytes_eq, Nat.mod_eq_of_lt hfit]
  · intro hfit hw hh
    rw [nPixelBytes_eq, Nat.mod_eq_of_lt hfit]
    positivity

/-! ## Who allocates the output sample -/

/-- C6, as stated, fails: for a transform that only "can provide" samples
    (`dwFlags = 0x200`) the claimed value `not (providesSamples and not discard)`
    is `true`, but `mustAllocateSample` is `false`; for a transform that provides
    samples and sets bit `0x1` (`dwFlags = 0x101`) likewise. -/
theorem mustAllocateSample_differs_from_claim :
    mustAllocateSample 0x200 = false ∧
    (!(onlyProvidesSamples 0x200 && !discardWhenNoBuffer 0x200)) = true ∧
    mustAllocateSample 0x101 = false ∧
    (!(onlyProvidesSamples 0x101 && !discardWhenNoBuffer 0x101)) = true := by
  decide

/-- C6, amended: for every flags word, `mustAllocateSample` is true exactly
    when `MFT_OUTPUT_STREAM_PROVIDES_SAMPLES` is clear and, in addition,
    `MFT_OUTPUT_STREAM_CAN_PROVIDE_SAMPLES` is clear or the discard bit is set.
    So it is false whenever the transform provides its samples (discard bit or
    not) and whenever it can provide them and the discard bit is clear. -/
theorem mustAllocateSample_iff (dwFlags : Nat) :
    (mustAllocateSample dwFlags = true ↔
      onlyProvidesSamples dwFlags = false ∧
        (canProvideSamples dwFlags = false ∨ discardWhenNoBuffer dwFlags = true)) ∧
    (mustAllocateSample dwFlags = false ↔
      onlyProvidesSamples dwFlags = true ∨
        (canProvideSamples dwFlags = true ∧ discardWhenNoBuffer dwFlags = false)) := by
  unfold mustAllocateSample
  cases onlyProvidesSamples dwFlags <;> cases canProvideSamples dwFlags <;>
    cases discardWhenNoBuffer dwFlags <;> simp

/-! ## The RGB24 path -/

/-- C2: for a target whose subtype is `MFVideoFormat_RGB24` and whose
    `width * height * 3` fits in 32 bits, if the descriptor reads, the factory
    (cached, or else created), the loader and the sample/buffer calls all
    succeed, `LoadImageAsSample` returns a sample with exactly one buffer whose
    current length is `width * height * 3`, and the run makes no call of
    `EncodeBitmapToContainer` and no registry or transform call of
    `ConvertIMFVideoSample`. -/
theorem LoadImageAsSample_rgb24 (w : World) (b : Bool)
    (hsub : w.guidSubtype = GUID.MFVideoFormat_RGB24)
    (hfit : u32 w.targetWidth * u32 w.targetHeight * 3 < 4294967296)
    (hsize : failed w.MFGetAttributeSize = false)
    (hguid : failed w.GetGUID = false)
    (hfactory : b = false → failed w.CoCreateInstance = false)
    (hstream : w.imageStream = true)
    (hdecoder : failed w.loader.CreateDecoderFromStream = false)
    (hframe : failed w.loader.GetFrame = false)
    (hgetsize : failed w.loader.GetSize = false)
    (hscaler : u32 w.targetWidth ≠ u32 w.loader.imageWidth ∨
        u32 w.targetHeight ≠ u32 w.loader.imageHeight →
      failed w.loader.CreateBitmapScaler = false ∧ failed w.loader.InitializeScaler = false)
    (hformat : failed w.loader.GetPixelFormat = false)
    (hcreate : failed w.outputSample.MFCreateSample = false)
    (hduration : failed w.outputSample.SetSampleDuration = false)
    (htime : failed w.outputSample.SetSampleTime = false)
    (hbuffer : failed w.outputSample.MFCreateAlignedMemoryBuffer = false)
    (hlock : failed w.outputSample.Lock = false)
    (hcopy : failed w.CopyPixels = false)
    (hunlock : failed w.outputSample.Unlock = false)
    (hlength : failed w.outputSample.SetCurrentLength = false)
    (hadd : failed w.outputSample.AddBuffer = false) :
    (LoadImageAsSample w (St.start b)).1 =
      Flow.next { duration := some 333333, time := some 1,
                  buffers := [{ cbMaxLength := u32 w.targetWidth * u32 w.targetHeight * 3,
                                fAlignmentFlags := MF_64_BYTE_ALIGNMENT,
                                cbCurrentLength :=
                                  some (u32 w.targetWidth * u32 w.targetHeight * 3) }] } ∧
    ∀ c ∈ (LoadImageAsSample w (St.start b)).2.trace,
      c.isContainerEncoderCall = false ∧ c.isTransformCall = false := by
  have hn : nPixelBytes (u32 w.targetWidth) (u32 w.targetHeight) =
      u32 w.targetWidth * u32 w.targetHeight * 3 := by
    rw [nPixelBytes_eq, Nat.mod_eq_of_lt hfit]
  have hsrc := loadSource_succeeds w (St.start b) hsize hguid hfactory hstream hdecoder hframe
    hgetsize hscaler hformat
  have hcalls := loadSource_calls w
    (fun c => c.isContainerEncoderCall = false ∧ c.isTransformCall = false)
    (fun c h1 h2 => ⟨h1, h2⟩) (St.start b) (by simp [St.start])
  have key : wp (LoadImageAsSample w) (fun r s' =>
      r = Flow.next ⟨some 333333, some 1, [⟨u32 w.targetWidth * u32 w.targetHeight * 3,
        MF_64_BYTE_ALIGNMENT, some (u32 w.targetWidth * u32 w.targetHeight * 3)⟩]⟩ ∧
      ∀ c ∈ s'.trace, c.isContainerEncoderCall = false ∧ c.isTransformCall = false)
      (St.start b) := by
    unfold LoadImageAsSample
    rw [wp_bind]
    rcases hrun : loadSource w (St.start b) with ⟨r, s1⟩
    rw [wp_of_eq _ _ _ _ hrun] at hsrc hcalls ⊢
    obtain ⟨bmp, rfl⟩ := hsrc
    have hs' : (∀ c ∈ s1.trace,
        c.isContainerEncoderCall = false ∧ c.isTransformCall = false) ↔ True :=
      iff_true_intro hcalls.2
    simp only [createRGB24Sample, convertToSubtype, hsub, if_true, wp_bind, wp_OK_OR_BAIL,
      wp_pure, hcreate, hduration, htime, hbuffer, hlock, hcopy, hunlock, hlength, hadd, hn,
      forall_mem_push, hs']
    simp [Sample.fresh, Call.isContainerEncoderCall, Call.isTransformCall]
  exact key

/-- C2 at a 4 x 2 RGB24 target whose source image is 4 x 2 as well. -/
theorem LoadImageAsSample_rgb24_witness :
    (World.rgb24.guidSubtype = GUID.MFVideoFormat_RGB24 ∧
      u32 World.rgb24.targetWidth * u32 World.rgb24.targetHeight * 3 < 4294967296) ∧
    (LoadImageAsSample World.rgb24 (St.start false)).1 =
      Flow.next { duration := some 333333, time := some 1,
                  buffers := [{ cbMaxLength := 24, fAlignmentFlags := MF_64_BYTE_ALIGNMENT,
                                cbCurrentLength := some 24 }] } ∧
    ∀ c ∈ (LoadImageAsSample World.rgb24 (St.start false)).2.trace,
      c.isContainerEncoderCall = false ∧ c.isTransformCall = false :=
  ⟨⟨rfl, by decide⟩,
    LoadImageAsSample_rgb24 World.rgb24 false rfl (by decide) rfl rfl (fun _ => rfl) rfl rfl rfl
      rfl (by decide) rfl rfl rfl rfl rfl rfl rfl rfl rfl rfl⟩

/-! ## The MJPG path -/

theorem u32_lt (n : Nat) : u32 n < 4294967296 := Nat.mod_lt _ (by decide)

theorem u32_eq_of_le_u32 (n m : Nat) (h : n ≤ u32 m) : u32 n = n :=
  Nat.mod_eq_of_lt (lt_of_le_of_lt h (u32_lt m))

/-- C4: whenever `LoadImageAsSample` returns a sample for an
    `MFVideoFormat_MJPG` target, that sample has one buffer, allocated with
    exactly the 64-bit stream size that `Stat` reported and with that size as
    its current length; the size is then below `2^32`, so the narrowing to
    `DWORD` has not changed it. -/
theorem LoadImageAsSample_mjpg_length (w : World) (b : Bool) (smp : Sample)
    (hsub : w.guidSubtype = GUID.MFVideoFormat_MJPG)
    (h : (LoadImageAsSample w (St.start b)).1 = Flow.next smp) :
    smp.buffers =
      [{ cbMaxLength := u64 w.cbSize, fAlignmentFlags := MF_64_BYTE_ALIGNMENT,
         cbCurrentLength := some (u64 w.cbSize) }] ∧
    Call.MFCreateAlignedMemoryBuffer (u64 w.cbSize) MF_64_BYTE_ALIGNMENT ∈
      (LoadImageAsSample w (St.start b)).2.trace ∧
    Call.SetCurrentLength (u64 w.cbSize) ∈ (LoadImageAsSample w (St.start b)).2.trace ∧
    u64 w.cbSize < 4294967296 := by
  have key : wp (LoadImageAsSample w) (fun r s' => ∀ smp, r = Flow.next smp →
      smp.buffers =
        [{ cbMaxLength := u64 w.cbSize, fAlignmentFlags := MF_64_BYTE_ALIGNMENT,
           cbCurrentLength := some (u64 w.cbSize) }] ∧
      Call.MFCreateAlignedMemoryBuffer (u64 w.cbSize) MF_64_BYTE_ALIGNMENT ∈ s'.trace ∧
      Call.SetCurrentLength (u64 w.cbSize) ∈ s'.trace ∧
      u64 w.cbSize < 4294967296) (St.start b) := by
    unfold LoadImageAsSample
    refine wp_bind_of_forall _ _ _ _ (fun _ s1 => ?_) (by simp) (by simp)
    refine wp_bind_of_forall _ _ _ _ (fun _ s2 => ?_) (by simp) (by simp)
    have hne : ¬ (GUID.MFVideoFormat_MJPG = GUID.MFVideoFormat_RGB24) := by simp
    simp only [convertToSubtype, hsub, hne, if_true, if_false]
    refine wp_bind_of_forall _ _ _ _ (fun _ s3 => ?_) (by simp) (by simp)
    refine wp_bind_of_forall _ _ _ _ (fun _ s4 => ?_) (by simp) (by simp)
    simp only [wrapJpgStream, wp_bind, wp_OK_OR_BAIL, wp_scope_exit, wp_ite, wp_invoke,
      wp_pure, wp_bail]
    simp only [reduceCtorEq, false_implies, implies_true, true_and, Flow.next.injEq]
    intro _ _ _ _ _ hlen _ _ _ smp hsmp
    have hle : u64 w.cbSize ≤ u32 w.jpgSample.max_length := Nat.le_of_not_lt hlen
    have h32 : u32 (u64 w.cbSize) = u64 w.cbSize := u32_eq_of_le_u32 _ _ hle
    subst hsmp
    simp [mem_push, Sample.fresh, h32]
    exact lt_of_le_of_lt hle (u32_lt _)
  exact key smp h

/-- C4 at a 4 x 2 MJPG target whose encoded stream has 1000 bytes. -/
theorem LoadImageAsSample_mjpg_length_witness :
    World.mjpg.guidSubtype = GUID.MFVideoFormat_MJPG ∧
    (LoadImageAsSample World.mjpg (St.start false)).1 =
      Flow.next { duration := none, time := none,
                  buffers := [{ cbMaxLength := 1000, fAlignmentFlags := MF_64_BYTE_ALIGNMENT,
                                cbCurrentLength := some 1000 }] } ∧
    u64 World.mjpg.cbSize < 4294967296 :=
  ⟨rfl, rfl,
    (LoadImageAsSample_mjpg_length World.mjpg false
      { duration := none, time := none,
        buffers := [{ cbMaxLength := 1000, fAlignmentFlags := MF_64_BYTE_ALIGNMENT,
                      cbCurrentLength := some 1000 }] }
      rfl rfl).2.2.2⟩

/-! ## No converter available -/

/-- C9: when the registry answers every one of the three category queries with
    success and zero candidates, `ConvertIMFVideoSample` returns null after
    exactly the calls `GetGUID`, the three `MFTEnumEx` queries and the
    "No converter avialable" log line: nothing is activated, configured or
    driven. So `LoadImageAsSample`, for a subtype that is neither RGB24 nor MJPG,
    returns null, its only registry/transform calls are `MFTEnumEx` queries, and
    the log line is there whenever the registry was queried. -/
theorem ConvertIMFVideoSample_no_candidates (w : World) (b : Bool) (width height : Nat) (s : St)
    (hzero : ∀ c, failed (w.convert.MFTEnumEx c).1 = false ∧ (w.convert.MFTEnumEx c).2 = [])
    (hsub1 : w.guidSubtype ≠ GUID.MFVideoFormat_RGB24)
    (hsub2 : w.guidSubtype ≠ GUID.MFVideoFormat_MJPG) :
    ConvertIMFVideoSample w.convert width height s =
      (Flow.bail,
       { s with trace := s.trace ++
          [Call.GetGUID,
           Call.MFTEnumEx Category.MFT_CATEGORY_VIDEO_PROCESSOR,
           Call.MFTEnumEx Category.MFT_CATEGORY_VIDEO_DECODER,
           Call.MFTEnumEx Category.MFT_CATEGORY_VIDEO_ENCODER,
           Call.LOG "No converter avialable for the selected format"] }) ∧
    (LoadImageAsSample w (St.start b)).1 = Flow.bail ∧
    (∀ c ∈ (LoadImageAsSample w (St.start b)).2.trace,
      c.isTransformCall = true → ∃ cat, c = Call.MFTEnumEx cat) ∧
    (Call.MFTEnumEx Category.MFT_CATEGORY_VIDEO_PROCESSOR ∈
        (LoadImageAsSample w (St.start b)).2.trace →
      Call.LOG "No converter avialable for the selected format" ∈
        (LoadImageAsSample w (St.start b)).2.trace) := by
  have hconv : ∀ (width height : Nat) (s : St),
      ConvertIMFVideoSample w.convert width height s =
      (Flow.bail,
       { s with trace := s.trace ++
          [Call.GetGUID,
           Call.MFTEnumEx Category.MFT_CATEGORY_VIDEO_PROCESSOR,
           Call.MFTEnumEx Category.MFT_CATEGORY_VIDEO_DECODER,
           Call.MFTEnumEx Category.MFT_CATEGORY_VIDEO_ENCODER,
           Call.LOG "No converter avialable for the selected format"] }) := by
    intro width height s
    simp [ConvertIMFVideoSample, transformerCategories, enumerate, activate, OK_OR_BAIL_apply,
      hzero, bind_apply, pure_apply, bail_apply, invoke_apply, St.push]
  refine ⟨hconv width height s, ?_⟩
  have hinv : ∀ t : St,
      (∀ c ∈ t.trace, c.isContainerEncoderCall = false ∧ c.isTransformCall = false) →
      (∀ c ∈ t.trace, c.isTransformCall = true → ∃ cat, c = Call.MFTEnumEx cat) ∧
      (Call.MFTEnumEx Category.MFT_CATEGORY_VIDEO_PROCESSOR ∈ t.trace →
        Call.LOG "No converter avialable for the selected format" ∈ t.trace) := by
    intro t ht
    constructor
    · intro c hc h
      rw [(ht c hc).2] at h
      cases h
    · intro h
      have := (ht _ h).2
      simp [Call.isTransformCall] at this
  have key : wp (LoadImageAsSample w) (fun r s' => r = Flow.bail ∧
      (∀ c ∈ s'.trace, c.isTransformCall = true → ∃ cat, c = Call.MFTEnumEx cat) ∧
      (Call.MFTEnumEx Category.MFT_CATEGORY_VIDEO_PROCESSOR ∈ s'.trace →
        Call.LOG "No converter avialable for the selected format" ∈ s'.trace))
      (St.start b) := by
    unfold LoadImageAsSample
    rw [wp_bind]
    have hcalls := loadSource_calls w
      (fun c => c.isContainerEncoderCall = false ∧ c.isTransformCall = false)
      (fun c h1 h2 => ⟨h1, h2⟩) (St.start b) (by simp [St.start])
    rcases hrun : loadSource w (St.start b) with ⟨r, s1⟩
    rw [wp_of_eq _ _ _ _ hrun] at hcalls ⊢
    obtain ⟨hnf, hs1⟩ := hcalls
    cases r with
    | fault => exact absurd rfl hnf
    | bail => exact ⟨rfl, hinv s1 hs1⟩
    | next bmp =>
      simp only []
      rw [wp_bind]
      have hcalls2 := createRGB24Sample_calls w (u32 w.targetWidth) (u32 w.targetHeight)
        (fun c => c.isContainerEncoderCall = false ∧ c.isTransformCall = false)
        (fun c h1 h2 => ⟨h1, h2⟩) s1 hs1
      rcases hrun2 : createRGB24Sample w (u32 w.targetWidth) (u32 w.targetHeight) s1
        with ⟨r2, s2⟩
      rw [wp_of_eq _ _ _ _ hrun2] at hcalls2 ⊢
      obtain ⟨hnf2, hs2⟩ := hcalls2
      cases r2 with
      | fault => exact absurd rfl hnf2
      | bail => exact ⟨rfl, hinv s2 hs2⟩
      | next smp =>
        simp only [convertToSubtype, hsub1, hsub2, if_false, wp_bind, wp_callFn]
        rw [wp_of_eq _ _ _ _ (hconv _ _ s2)]
        simp only [wp_ret]
        have hmem : ∀ c, c ∈ s2.trace ++
            [Call.GetGUID,
             Call.MFTEnumEx Category.MFT_CATEGORY_VIDEO_PROCESSOR,
             Call.MFTEnumEx Category.MFT_CATEGORY_VIDEO_DECODER,
             Call.MFTEnumEx Category.MFT_CATEGORY_VIDEO_ENCODER,
             Call.LOG "No converter avialable for the selected format"] →
            c.isTransformCall = true → ∃ cat, c = Call.MFTEnumEx cat := by
          intro c hc h
          rcases List.mem_append.1 hc with hc | hc
          · rw [(hs2 c hc).2] at h
            cases h
          · simp at hc
            rcases hc with rfl | rfl | rfl | rfl | rfl <;> simp [Call.isTransformCall] at h ⊢
        refine ⟨fun a ha => (by cases ha), fun _ => ⟨trivial, hmem, fun _ => ?_⟩⟩
        simp
  exact key

/-- C9 at a 4 x 2 target of another subtype with an empty registry. -/
theorem ConvertIMFVideoSample_no_candidates_witness :
    (∀ c, failed (World.noConverter.convert.MFTEnumEx c).1 = false ∧
      (World.noConverter.convert.MFTEnumEx c).2 = []) ∧
    (LoadImageAsSample World.noConverter (St.start false)).1 = Flow.bail :=
  ⟨fun _ => ⟨rfl, rfl⟩,
    (ConvertIMFVideoSample_no_candidates World.noConverter false 4 2 (St.start false)
      (fun _ => ⟨rfl, rfl⟩) (by decide) (by decide)).2.1⟩

/-! ## Selection of the transform -/

theorem activate_some (acts : List Activate) (i : Nat) (x : Nat × Transform) (s : St) :
    ∃ l, activate i acts (some x) s = (Flow.next (some x), { s with trace := s.trace ++ l }) ∧
      l.filterMap Call.released? = List.range' i acts.length ∧
      l.filterMap Call.activated? = [] ∧
      l.filterMap Call.category? = [] ∧
      ∀ c ∈ l, c.transform? = none := by
  induction acts generalizing i s with
  | nil => exact ⟨[], by simp [activate, pure_apply], by simp⟩
  | cons a rest ih =>
    obtain ⟨l, h1, h2, h3, h4, h5⟩ := ih (i + 1) (s.push (Call.Release i))
    refine ⟨Call.Release i :: l, ?_, ?_, ?_, ?_, ?_⟩
    · simp only [St.push, List.append_assoc, List.singleton_append] at h1
      simp [activate, bind_apply, pure_apply, invoke_apply, h1, St.push]
    · simp [Call.released?, h2, List.range'_succ]
    · simp [Call.activated?, h3]
    · simp [Call.category?, h4]
    · simp [Call.transform?]
      exact h5

theorem activate_none (acts : List Activate) (i : Nat) (s : St) :
    ∃ l vt, activate i acts none s = (Flow.next vt, { s with trace := s.trace ++ l }) ∧
      l.filterMap Call.released? = List.range' i acts.length ∧
      l.filterMap Call.category? = [] ∧
      (∀ c ∈ l, c.transform? = none) ∧
      ((∀ a ∈ acts, a.activates = false) →
        vt = none ∧ l.filterMap Call.activated? = List.range' i acts.length) ∧
      (∀ k a, acts[k]? = some a → a.activates = true →
        (∀ j a', j < k → acts[j]? = some a' → a'.activates = false) →
        vt = some (i + k, a.transform) ∧
          l.filterMap Call.activated? = List.range' i (k + 1)) := by
  induction acts generalizing i s with
  | nil => exact ⟨[], none, by simp [activate, pure_apply], by simp⟩
  | cons a rest ih =>
    cases ha : a.activates with
    | true =>
      obtain ⟨l, h1, h2, h3, h4, h5⟩ := activate_some rest (i + 1) (i, a.transform)
        ((s.push (Call.ActivateObject i)).push (Call.Release i))
      simp only [St.push, List.append_assoc, List.singleton_append] at h1
      refine ⟨Call.ActivateObject i :: Call.Release i :: l, some (i, a.transform),
        ?_, ?_, ?_, ?_, ?_, ?_⟩
      · simp [activate, bind_apply, pure_apply, invoke_apply, h1, St.push, ha]
      · simp [Call.released?, h2, List.range'_succ]
      · simp [Call.category?, h4]
      · simp [Call.transform?]
        exact h5
      · intro hall
        have := hall a (List.mem_cons_self _ _)
        rw [ha] at this
        cases this
      · intro k a' hk hact hfirst
        cases k with
        | zero =>
          simp at hk
          subst hk
          simp [Call.activated?, h3, List.range'_succ]
        | succ k =>
          have := hfirst 0 a (Nat.succ_pos _) (by simp)
          rw [ha] at this
          cases this
    | false =>
      obtain ⟨l, vt, h1, h2, h3, h4, h5, h6⟩ := ih (i + 1)
        ((s.push (Call.ActivateObject i)).push (Call.Release i))
      simp only [St.push, List.append_assoc, List.singleton_append] at h1
      refine ⟨Call.ActivateObject i :: Call.Release i :: l, vt, ?_, ?_, ?_, ?_, ?_, ?_⟩
      · simp [activate, bind_apply, pure_apply, invoke_apply, h1, St.push, ha]
      · simp [Call.released?, h2, List.range'_succ]
      · simp [Call.category?, h3]
      · simp [Call.transform?]
        exact h4
      · intro hall
        obtain ⟨hv, hl⟩ := h5 (fun a' ha' => hall a' (List.mem_cons_of_mem _ ha'))
        simp [Call.activated?, hv, hl, List.range'_succ]
      · intro k a' hk hact hfirst
        cases k with
        | zero =>
          simp at hk
          subst hk
          rw [ha] at hact
          cases hact
        | succ k =>
          simp at hk
          obtain ⟨hv, hl⟩ := h6 k a' hk hact
            (fun j a'' hj hj' => hfirst (j + 1) a'' (Nat.succ_lt_succ hj) (by simpa using hj'))
          refine ⟨?_, ?_⟩
          · rw [hv]
            simp
            omega
          · simp [Call.activated?, hl, List.range'_succ]

theorem enumerate_spec (w : ConvertWorld) (s : St) :
    ∃ l r, enumerate w transformerCategories s = (r, { s with trace := s.trace ++ l }) ∧
      l.filterMap Call.category? <+: transformerCategories ∧
      (∀ c ∈ l.filterMap Call.category?, (w.MFTEnumEx c).2 ≠ [] →
        (l.filterMap Call.category?).getLast? = some c) ∧
      (∀ c ∈ l.filterMap Call.category?, failed (w.MFTEnumEx c).1 = true →
        (l.filterMap Call.category?).getLast? = some c) ∧
      (∀ c ∈ (l.filterMap Call.category?).dropLast,
        failed (w.MFTEnumEx c).1 = false ∧ (w.MFTEnumEx c).2 = []) ∧
      (l.filterMap Call.category? = transformerCategories ∨
        ∃ c, (l.filterMap Call.category?).getLast? = some c ∧
          (failed (w.MFTEnumEx c).1 = true ∨ (w.MFTEnumEx c).2 ≠ [])) ∧
      l.filterMap Call.activated? = [] ∧
      l.filterMap Call.released? = [] ∧
      (∀ c ∈ l, c.transform? = none) ∧
      ∃ c, (l.filterMap Call.category?).getLast? = some c ∧
        ((failed (w.MFTEnumEx c).1 = true ∧ r = Flow.bail) ∨
         (failed (w.MFTEnumEx c).1 = false ∧ r = Flow.next (w.MFTEnumEx c).2)) := by
  cases hP : failed (w.MFTEnumEx Category.MFT_CATEGORY_VIDEO_PROCESSOR).1 with
  | true =>
    refine ⟨[Call.MFTEnumEx Category.MFT_CATEGORY_VIDEO_PROCESSOR], Flow.bail, ?_, ?_, ?_, ?_,
      ?_, ?_, ?_, ?_, ?_, Category.MFT_CATEGORY_VIDEO_PROCESSOR, ?_, ?_⟩ <;>
    simp [enumerate, transformerCategories, bind_apply, OK_OR_BAIL_apply, pure_apply, hP,
      St.push, Call.category?, Call.activated?, Call.released?, Call.transform?]
  | false =>
    by_cases hPl : (w.MFTEnumEx Category.MFT_CATEGORY_VIDEO_PROCESSOR).2 = []
    · cases hD : failed (w.MFTEnumEx Category.MFT_CATEGORY_VIDEO_DECODER).1 with
      | true =>
        refine ⟨[Call.MFTEnumEx Category.MFT_CATEGORY_VIDEO_PROCESSOR,
            Call.MFTEnumEx Category.MFT_CATEGORY_VIDEO_DECODER],
          Flow.bail,
          ?_, ?_, ?_, ?_, ?_, ?_, ?_, ?_, ?_, Category.MFT_CATEGORY_VIDEO_DECODER, ?_, ?_⟩ <;>
        simp [enumerate, transformerCategories, bind_apply, OK_OR_BAIL_apply, pure_apply,
          St.push, Call.category?, Call.activated?, Call.released?, Call.transform?, hP, hPl, hD]
      | false =>
        by_cases hDl : (w.MFTEnumEx Category.MFT_CATEGORY_VIDEO_DECODER).2 = []
        · cases hE : failed (w.MFTEnumEx Category.MFT_CATEGORY_VIDEO_ENCODER).1 with
          | true =>
            refine ⟨[Call.MFTEnumEx Category.MFT_CATEGORY_VIDEO_PROCESSOR,
                Call.MFTEnumEx Category.MFT_CATEGORY_VIDEO_DECODER,
                Call.MFTEnumEx Category.MFT_CATEGORY_VIDEO_ENCODER],
              Flow.bail,
              ?_, ?_, ?_, ?_, ?_, ?_, ?_, ?_, ?_, Category.MFT_CATEGORY_VIDEO_ENCODER, ?_, ?_⟩ <;>
            simp [enumerate, transformerCategories, bind_apply, OK_OR_BAIL_apply, pure_apply,
              St.push, Call.category?, Call.activated?, Call.released?, Call.transform?, hP, hPl,
              hD, hDl, hE]
          | false =>
            by_cases hEl : (w.MFTEnumEx Category.MFT_CATEGORY_VIDEO_ENCODER).2 = []
            ·
              refine ⟨[Call.MFTEnumEx Category.MFT_CATEGORY_VIDEO_PROCESSOR,
                  Call.MFTEnumEx Category.MFT_CATEGORY_VIDEO_DECODER,
                  Call.MFTEnumEx Category.MFT_CATEGORY_VIDEO_ENCODER],
                Flow.next [],
                ?_, ?_, ?_, ?_, ?_, ?_, ?_, ?_, ?_, Category.MFT_CATEGORY_VIDEO_ENCODER, ?_, ?_⟩ <;>
              simp [enumerate, transformerCategories, bind_apply, OK_OR_BAIL_apply, pure_apply,
                St.push, Call.category?, Call.activated?, Call.released?, Call.transform?, hP,
                hPl, hD, hDl, hE, hEl]
            ·
              refine ⟨[Call.MFTEnumEx Category.MFT_CATEGORY_VIDEO_PROCESSOR,
                  Call.MFTEnumEx Category.MFT_CATEGORY_VIDEO_DECODER,
                  Call.MFTEnumEx Category.MFT_CATEGORY_VIDEO_ENCODER],
                Flow.next (w.MFTEnumEx Category.MFT_CATEGORY_VIDEO_ENCODER).2,
                ?_, ?_, ?_, ?_, ?_, ?_, ?_, ?_, ?_, Category.MFT_CATEGORY_VIDEO_ENCODER, ?_, ?_⟩ <;>
              simp [enumerate, transformerCategories, bind_apply, OK_OR_BAIL_apply, pure_apply,
                St.push, Call.category?, Call.activated?, Call.released?, Call.transform?, hP,
                hPl, hD, hDl, hE, hEl]
        ·
          refine ⟨[Call.MFTEnumEx Category.MFT_CATEGORY_VIDEO_PROCESSOR,
              Call.MFTEnumEx Category.MFT_CATEGORY_VIDEO_DECODER],
            Flow.next (w.MFTEnumEx Category.MFT_CATEGORY_VIDEO_DECODER).2,
            ?_, ?_, ?_, ?_, ?_, ?_, ?_, ?_, ?_, Category.MFT_CATEGORY_VIDEO_DECODER, ?_, ?_⟩ <;>
          simp [enumerate, transformerCategories, bind_apply, OK_OR_BAIL_apply, pure_apply,
            St.push, Call.category?, Call.activated?, Call.released?, Call.transform?, hP, hPl,
            hD, hDl]
    ·
      refine ⟨[Call.MFTEnumEx Category.MFT_CATEGORY_VIDEO_PROCESSOR],
        Flow.next (w.MFTEnumEx Category.MFT_CATEGORY_VIDEO_PROCESSOR).2,
        ?_, ?_, ?_, ?_, ?_, ?_, ?_, ?_, ?_, Category.MFT_CATEGORY_VIDEO_PROCESSOR, ?_, ?_⟩ <;>
      simp [enumerate, transformerCategories, bind_apply, OK_OR_BAIL_apply, pure_apply,
        St.push, Call.category?, Call.activated?, Call.released?, Call.transform?, hP, hPl]

theorem framed_pure {α : Type} (a : α) : framed (pure a : M α) := by
  intro s
  simp [pure_apply]

theorem framed_bail {α : Type} : framed (bail : M α) := by
  intro s
  simp [bail_apply]

theorem framed_fault {α : Type} : framed (fault : M α) := by
  intro s
  simp [fault_apply]

theorem framed_invoke (c : Call) : framed (invoke c) := by
  intro s
  simp [invoke_apply, St.push]

theorem framed_OK_OR_BAIL (c : Call) (hr : HRESULT) : framed (OK_OR_BAIL c hr) := by
  intro s
  cases h : failed hr <;> simp [OK_OR_BAIL_apply, St.push, h]

theorem framed_ret {α : Type} (p : Option α) : framed (ret p) := by
  cases p
  · exact framed_bail
  · exact framed_pure _

theorem framed_ite {α : Type} (c : Prop) [Decidable c] (a b : M α) (ha : framed a)
    (hb : framed b) : framed (if c then a else b) := by
  by_cases h : c <;> simp [h, ha, hb]

theorem framed_bind {α β : Type} (m : M α) (f : α → M β) (hm : framed m)
    (hf : ∀ a, framed (f a)) : framed (m >>= f) := by
  intro s
  rw [bind_apply, bind_apply, hm s]
  rcases h0 : m { trace := [], s_Factory := s.s_Factory } with ⟨r, s0⟩
  cases r with
  | next a =>
    simp only []
    rw [hf a { trace := s.trace ++ s0.trace, s_Factory := s0.s_Factory }, hf a s0]
    simp [List.append_assoc]
  | bail => simp
  | fault => simp

theorem framed_scope_exit {α : Type} (c : Call) (body : M α) (h : framed body) :
    framed (scope_exit c body) := by
  intro s
  simp only [scope_exit]
  rw [h s]
  simp [St.push, List.append_assoc]

theorem framed_allocateOutputSample (w : SampleWorld) (cbSize cbAlignment : Nat) :
    framed (allocateOutputSample w cbSize cbAlignment) := by
  unfold allocateOutputSample
  repeat' first
    | exact framed_pure _
    | exact framed_OK_OR_BAIL _ _
    | apply framed_bind
    | intro _

theorem framed_driveTransform (w : ConvertWorld) (k : Nat) (t : Transform) (width height : Nat) :
    framed (driveTransform w k t width height) := by
  unfold driveTransform
  repeat' first
    | exact framed_pure _
    | exact framed_invoke _
    | exact framed_ret _
    | exact framed_OK_OR_BAIL _ _
    | exact framed_allocateOutputSample _ _ _
    | apply framed_bind
    | apply framed_ite
    | intro _

theorem scope_exit_trace {α : Type} (c : Call) (body : M α) (s : St) (h : framed body) :
    (scope_exit c body s).2.trace =
      s.trace ++ (body { trace := [], s_Factory := s.s_Factory }).2.trace ++ [c] := by
  simp only [scope_exit]
  rw [h s]
  simp [St.push]

theorem driveTransform_calls (w : ConvertWorld) (k : Nat) (t : Transform) (width height : Nat)
    (P : Call → Prop)
    (hP : ∀ c, c.category? = none → c.activated? = none → c.released? = none →
      (∀ i, c.transform? = some i → i = k) → P c)
    (s : St) (hs : ∀ c ∈ s.trace, P c) :
    wp (driveTransform w k t width height) (fun _ s' => ∀ c ∈ s'.trace, P c) s := by
  have hs' : (∀ c ∈ s.trace, P c) ↔ True := iff_true_intro hs
  simp only [driveTransform, allocateOutputSample, wp_bind, wp_OK_OR_BAIL, wp_ite, wp_pure,
    wp_bail, wp_invoke, wp_ret, forall_mem_push, hs']
  simp [hP, Call.category?, Call.activated?, Call.released?, Call.transform?]

/-- C10: component selection in `ConvertIMFVideoSample`. The categories
    queried form an initial segment of processor, decoder, encoder, and a category
    that returned at least one candidate is the last one queried; so is a
    category whose query failed. Every category queried before the last one
    answered with success and no candidate, and the queries stop short of the
    encoder category only at a query that failed or returned a candidate: a
    successful query without candidates is always followed by the query of the
    next category. With `c` the
    last category queried: if its query failed, nothing is activated or released.
    Otherwise the candidate list in use is the one returned for `c`; every one
    of its handles is released exactly once, in order (`released = range n`); if
    no candidate activates, activation was attempted on each and no transform is
    driven; and if `k` is the first candidate that activates, activation was
    attempted on candidates `0 .. k` only, every call on a transform carries the
    index `k`, and the run is the one that drives the transform of candidate `k`. -/
theorem ConvertIMFVideoSample_selection (w : ConvertWorld) (width height : Nat) (b : Bool) :
    queried (ConvertIMFVideoSample.calls w width height b) <+: transformerCategories ∧
    (∀ c ∈ queried (ConvertIMFVideoSample.calls w width height b), (w.MFTEnumEx c).2 ≠ [] →
      (queried (ConvertIMFVideoSample.calls w width height b)).getLast? = some c) ∧
    (∀ c ∈ queried (ConvertIMFVideoSample.calls w width height b),
      failed (w.MFTEnumEx c).1 = true →
      (queried (ConvertIMFVideoSample.calls w width height b)).getLast? = some c) ∧
    (∀ c ∈ (queried (ConvertIMFVideoSample.calls w width height b)).dropLast,
      failed (w.MFTEnumEx c).1 = false ∧ (w.MFTEnumEx c).2 = []) ∧
    (queried (ConvertIMFVideoSample.calls w width height b) = transformerCategories ∨
      ∃ c, (queried (ConvertIMFVideoSample.calls w width height b)).getLast? = some c ∧
        (failed (w.MFTEnumEx c).1 = true ∨ (w.MFTEnumEx c).2 ≠ [])) ∧
    ∃ c, (queried (ConvertIMFVideoSample.calls w width height b)).getLast? = some c ∧
      (failed (w.MFTEnumEx c).1 = true →
        attempted (ConvertIMFVideoSample.calls w width height b) = [] ∧
        released (ConvertIMFVideoSample.calls w width height b) = [] ∧
        ∀ x ∈ ConvertIMFVideoSample.calls w width height b, x.transform? = none) ∧
      (failed (w.MFTEnumEx c).1 = false →
        released (ConvertIMFVideoSample.calls w width height b) =
          List.range (w.MFTEnumEx c).2.length ∧
        ((∀ a ∈ (w.MFTEnumEx c).2, a.activates = false) →
          attempted (ConvertIMFVideoSample.calls w width height b) =
            List.range (w.MFTEnumEx c).2.length ∧
          ∀ x ∈ ConvertIMFVideoSample.calls w width height b, x.transform? = none) ∧
        (∀ k a, (w.MFTEnumEx c).2[k]? = some a → a.activates = true →
          (∀ j a', j < k → (w.MFTEnumEx c).2[j]? = some a' → a'.activates = false) →
          attempted (ConvertIMFVideoSample.calls w width height b) = List.range (k + 1) ∧
          (∀ x ∈ ConvertIMFVideoSample.calls w width height b,
            ∀ i, x.transform? = some i → i = k) ∧
          ∃ pre, ConvertIMFVideoSample w width height (St.start b) =
            scope_exit (Call.MFShutdownObject k) (driveTransform w k a.transform width height)
              { trace := pre, s_Factory := b })) := by
  obtain ⟨le, r, he, hpre, hlast, hfl, hdl, hstop, hea, her, het, c, hc, hcase⟩ :=
    enumerate_spec w ((St.start b).push Call.GetGUID)
  simp only [St.push, St.start, List.nil_append, List.singleton_append] at he
  rcases hcase with ⟨hfail, rfl⟩ | ⟨hok, rfl⟩
  · -- the enumeration itself failed
    have hrun : ConvertIMFVideoSample.calls w width height b = Call.GetGUID :: le := by
      simp [ConvertIMFVideoSample.calls, ConvertIMFVideoSample, bind_apply, invoke_apply, he,
        St.push, St.start]
    rw [hrun]
    have hq : queried (Call.GetGUID :: le) = le.filterMap Call.category? := by
      simp [queried, Call.category?]
    rw [hq]
    refine ⟨hpre, hlast, hfl, hdl, hstop, c, hc, fun _ => ⟨?_, ?_, ?_⟩, fun h => ?_⟩
    · simp [attempted, Call.activated?, hea]
    · simp [released, Call.released?, her]
    · simp [Call.transform?]
      exact het
    · rw [hfail] at h
      cases h
  · -- the enumeration ended with the candidates of category `c`
    obtain ⟨la, vt, ha, hrel, hcat, htr, hnone, hsome⟩ :=
      activate_none (w.MFTEnumEx c).2 0 { trace := Call.GetGUID :: le, s_Factory := b }
    simp only [List.cons_append] at ha
    have hq : ∀ tail : List Call, tail.filterMap Call.category? = [] →
        queried (Call.GetGUID :: (le ++ la ++ tail)) = le.filterMap Call.category? := by
      intro tail ht
      simp [queried, Call.category?, hcat, ht]
    have hr : ∀ tail : List Call, tail.filterMap Call.released? = [] →
        released (Call.GetGUID :: (le ++ la ++ tail)) = List.range (w.MFTEnumEx c).2.length := by
      intro tail ht
      simp [released, Call.released?, her, hrel, ht, List.range_eq_range']
    have hat : ∀ tail : List Call, tail.filterMap Call.activated? = [] →
        attempted (Call.GetGUID :: (le ++ la ++ tail)) = la.filterMap Call.activated? := by
      intro tail ht
      simp [attempted, Call.activated?, hea, ht]
    have hfree : ∀ s1 : St, ∃ lf,
        (if ((w.MFTEnumEx c).2.length != 0) = true then invoke Call.CoTaskMemFree else pure ()) s1
          = (Flow.next (), { s1 with trace := s1.trace ++ lf }) ∧
        ∀ x ∈ lf, x.category? = none ∧ x.activated? = none ∧ x.released? = none ∧
          x.transform? = none := by
      intro s1
      by_cases hlen : ((w.MFTEnumEx c).2.length != 0) = true
      · exact ⟨[Call.CoTaskMemFree], by simp [hlen, invoke_apply, St.push],
          by simp [Call.category?, Call.activated?, Call.released?, Call.transform?]⟩
      · exact ⟨[], by simp [hlen, pure_apply], by simp⟩
    obtain ⟨lf, hf, hlf⟩ := hfree { trace := Call.GetGUID :: (le ++ la), s_Factory := b }
    dsimp only at hf
    have hshape : ∃ tail, ConvertIMFVideoSample.calls w width height b =
          Call.GetGUID :: (le ++ la ++ tail) ∧
        tail.filterMap Call.category? = [] ∧ tail.filterMap Call.activated? = [] ∧
        tail.filterMap Call.released? = [] ∧
        (∀ x ∈ tail, ∀ i, x.transform? = some i → ∃ t, vt = some (i, t)) ∧
        (∀ k t, vt = some (k, t) → ∃ pre, ConvertIMFVideoSample w width height (St.start b) =
          scope_exit (Call.MFShutdownObject k) (driveTransform w k t width height)
            { trace := pre, s_Factory := b }) := by
      cases vt with
      | none =>
        refine ⟨lf ++ [Call.LOG "No converter avialable for the selected format"], ?_, ?_, ?_,
          ?_, ?_, ?_⟩
        · simp only [ConvertIMFVideoSample.calls, ConvertIMFVideoSample, bind_apply,
            invoke_apply, St.push, St.start, List.nil_append, he, ha, hf, bail_apply]
          simp [List.append_assoc]
        · simp [Call.category?]
          exact fun x hx => (hlf x hx).1
        · simp [Call.activated?]
          exact fun x hx => (hlf x hx).2.1
        · simp [Call.released?]
          exact fun x hx => (hlf x hx).2.2.1
        · intro x hx i hi
          rcases List.mem_append.1 hx with hx | hx
          · rw [(hlf x hx).2.2.2] at hi
            cases hi
          · simp at hx
            subst hx
            simp [Call.transform?] at hi
        · intro k t h
          cases h
      | some kt =>
        obtain ⟨k, t⟩ := kt
        have hd := driveTransform_calls w k t width height
          (fun x => x.category? = none ∧ x.activated? = none ∧ x.released? = none ∧
            ∀ i, x.transform? = some i → i = k)
          (fun x h1 h2 h3 h4 => ⟨h1, h2, h3, h4⟩) { trace := [], s_Factory := b } (by simp)
        unfold wp at hd
        dsimp only at hd
        have hrun : ConvertIMFVideoSample w width height (St.start b) =
            scope_exit (Call.MFShutdownObject k) (driveTransform w k t width height)
              { trace := Call.GetGUID :: (le ++ la) ++ lf, s_Factory := b } := by
          simp only [ConvertIMFVideoSample, bind_apply, invoke_apply, St.push, St.start,
            List.nil_append, he, ha, hf]
        refine ⟨lf ++ (driveTransform w k t width height { trace := [], s_Factory := b }).2.trace
          ++ [Call.MFShutdownObject k], ?_, ?_, ?_, ?_, ?_, ?_⟩
        · rw [ConvertIMFVideoSample.calls, hrun,
            scope_exit_trace _ _ _ (framed_driveTransform w k t width height)]
          simp [List.append_assoc]
        · simp [Call.category?]
          exact ⟨fun x hx => (hlf x hx).1, fun x hx => (hd x hx).1⟩
        · simp [Call.activated?]
          exact ⟨fun x hx => (hlf x hx).2.1, fun x hx => (hd x hx).2.1⟩
        · simp [Call.released?]
          exact ⟨fun x hx => (hlf x hx).2.2.1, fun x hx => (hd x hx).2.2.1⟩
        · intro x hx i hi
          simp only [List.mem_append, List.mem_singleton] at hx
          rcases hx with (hx | hx) | hx
          · rw [(hlf x hx).2.2.2] at hi
            cases hi
          · have := (hd x hx).2.2.2 i hi
            subst this
            exact ⟨t, rfl⟩
          · subst hx
            simp [Call.transform?] at hi
            subst hi
            exact ⟨t, rfl⟩
        · intro k' t' h
          simp at h
          obtain ⟨rfl, rfl⟩ := h
          exact ⟨_, hrun⟩
    obtain ⟨tail, hcalls, htc, hta, htr', htt, hdrive⟩ := hshape
    have hnot : ∀ x ∈ Call.GetGUID :: (le ++ la ++ tail), ∀ i, x.transform? = some i →
        ∃ t, vt = some (i, t) := by
      intro x hx i hi
      simp only [List.mem_cons, List.mem_append] at hx
      rcases hx with rfl | (hx | hx) | hx
      · simp [Call.transform?] at hi
      · rw [het x hx] at hi
        cases hi
      · rw [htr x hx] at hi
        cases hi
      · exact htt x hx i hi
    rw [hcalls, hq tail htc, hr tail htr', hat tail hta]
    refine ⟨hpre, hlast, hfl, hdl, hstop, c, hc, fun h => ?_, fun _ => ⟨rfl, ?_, ?_⟩⟩
    · rw [hok] at h
      cases h
    · intro hall
      obtain ⟨hv, hl⟩ := hnone hall
      refine ⟨by rw [hl, List.range_eq_range'], fun x hx => ?_⟩
      cases hx' : x.transform? with
      | none => rfl
      | some i =>
        obtain ⟨t, ht⟩ := hnot x hx i hx'
        rw [hv] at ht
        cases ht
    · intro k a hk hact hfirst
      obtain ⟨hv, hl⟩ := hsome k a hk hact hfirst
      refine ⟨by rw [hl, List.range_eq_range'], fun x hx i hi => ?_, ?_⟩
      · obtain ⟨t, ht⟩ := hnot x hx i hi
        rw [hv] at ht
        simp at ht
        exact ht.1.symm
      · exact hdrive k a.transform (by rw [hv]; simp)

/-- An instance of the selection: the processor category is empty, the decoder
    category returns three candidates of which the first does not activate
    and the second does; the encoder category is never queried. -/
theorem ConvertIMFVideoSample_selection_example :
    queried (ConvertIMFVideoSample.calls World.threeDecoders.convert 4 2 false) =
      [Category.MFT_CATEGORY_VIDEO_PROCESSOR, Category.MFT_CATEGORY_VIDEO_DECODER] ∧
    attempted (ConvertIMFVideoSample.calls World.threeDecoders.convert 4 2 false) = [0, 1] ∧
    released (ConvertIMFVideoSample.calls World.threeDecoders.convert 4 2 false) = [0, 1, 2] ∧
    (ConvertIMFVideoSample.calls World.threeDecoders.convert 4 2 false).filterMap
      Call.transform? = [1, 1, 1, 1, 1, 1] :=
  ⟨rfl, rfl, rfl, rfl⟩

/-! ## Independence from earlier calls -/

theorem framed_callFn {α : Type} (f : M α) (h : framed f) : framed (callFn f) := by
  intro s
  simp only [callFn]
  rw [h s]
  rcases f { trace := [], s_Factory := s.s_Factory } with ⟨r, s0⟩
  cases r <;> simp

theorem framed_GetWIC (w : World) : framed (_GetWIC w) := by
  intro s
  obtain ⟨t, f⟩ := s
  unfold _GetWIC
  cases f with
  | true => simp
  | false =>
    cases h : failed w.CoCreateInstance <;>
      simp [bind_apply, OK_OR_BAIL_apply, St.push, h]

theorem framed_LoadAsRGB24BitmapWithSize (w : LoaderWorld) (tw th : Nat) :
    framed (LoadAsRGB24BitmapWithSize w tw th) := by
  unfold LoadAsRGB24BitmapWithSize
  repeat' first
    | exact framed_pure _
    | exact framed_invoke _
    | exact framed_OK_OR_BAIL _ _
    | apply framed_bind
    | apply framed_ite
    | intro _

theorem framed_EncodeBitmapToContainer (w : EncoderWorld) (width height : Nat) :
    framed (EncodeBitmapToContainer w width height) := by
  unfold EncodeBitmapToContainer
  repeat' first
    | exact framed_pure _
    | exact framed_bail
    | exact framed_invoke _
    | exact framed_OK_OR_BAIL _ _
    | apply framed_bind
    | apply framed_ite
    | intro _

theorem framed_enumerate (w : ConvertWorld) (cs : List Category) : framed (enumerate w cs) := by
  induction cs with
  | nil => exact framed_pure _
  | cons c cs ih =>
    unfold enumerate
    exact framed_bind _ _ (framed_OK_OR_BAIL _ _)
      (fun _ => framed_ite _ _ _ (framed_pure _) ih)

theorem framed_activate (acts : List Activate) (i : Nat) (vt : Option (Nat × Transform)) :
    framed (activate i acts vt) := by
  induction acts generalizing i vt with
  | nil => exact framed_pure _
  | cons a rest ih =>
    unfold activate
    refine framed_bind _ _ ?_ (fun vt' => framed_bind _ _ (framed_invoke _) (fun _ => ih _ _))
    refine framed_ite _ _ _ ?_ (framed_pure _)
    exact framed_bind _ _ (framed_invoke _)
      (fun _ => framed_ite _ _ _ (framed_pure _) (framed_pure _))

theorem framed_ConvertIMFVideoSample (w : ConvertWorld) (width height : Nat) :
    framed (ConvertIMFVideoSample w width height) := by
  unfold ConvertIMFVideoSample
  refine framed_bind _ _ (framed_invoke _) (fun _ => ?_)
  refine framed_bind _ _ (framed_enumerate _ _) (fun acts => ?_)
  refine framed_bind _ _ (framed_activate _ _ _) (fun vt => ?_)
  refine framed_bind _ _ (framed_ite _ _ _ (framed_invoke _) (framed_pure _)) (fun _ => ?_)
  cases vt with
  | none => exact framed_bind _ _ (framed_invoke _) (fun _ => framed_bail)
  | some kt => exact framed_scope_exit _ _ (framed_driveTransform _ _ _ _ _)

theorem framed_wrapJpgStream (w : World) : framed (wrapJpgStream w) := by
  unfold wrapJpgStream
  repeat' first
    | exact framed_pure _
    | exact framed_bail
    | exact framed_invoke _
    | exact framed_OK_OR_BAIL _ _
    | apply framed_bind
    | apply framed_ite
    | apply framed_scope_exit
    | intro _

theorem framed_createRGB24Sample (w : World) (tw th : Nat) :
    framed (createRGB24Sample w tw th) := by
  unfold createRGB24Sample
  repeat' first
    | exact framed_pure _
    | exact framed_OK_OR_BAIL _ _
    | apply framed_bind
    | intro _

theorem framed_loadSource (w : World) : framed (loadSource w) := by
  unfold loadSource
  repeat' first
    | exact framed_pure _
    | exact framed_bail
    | exact framed_ret _
    | exact framed_invoke _
    | exact framed_OK_OR_BAIL _ _
    | exact framed_callFn _ (framed_GetWIC _)
    | exact framed_callFn _ (framed_LoadAsRGB24BitmapWithSize _ _ _)
    | apply framed_bind
    | apply framed_ite
    | intro _

theorem framed_convertToSubtype (w : World) (tw th : Nat) (smp : Sample) :
    framed (convertToSubtype w tw th smp) := by
  unfold convertToSubtype
  repeat' first
    | exact framed_pure _
    | exact framed_fault
    | exact framed_ret _
    | exact framed_wrapJpgStream _
    | exact framed_callFn _ (framed_EncodeBitmapToContainer _ _ _)
    | exact framed_callFn _ (framed_ConvertIMFVideoSample _ _ _)
    | apply framed_bind
    | apply framed_ite
    | intro _

/-- The outcome of `LoadImageAsSample` and the calls it makes do not depend on
    the calls made before the run. -/
theorem framed_LoadImageAsSample (w : World) : framed (LoadImageAsSample w) := by
  unfold LoadImageAsSample
  exact framed_bind _ _ (framed_loadSource _) (fun _ =>
    framed_bind _ _ (framed_createRGB24Sample _ _ _) (fun _ => framed_convertToSubtype _ _ _ _))

/-! ## The raw RGB24 buffer, for every target subtype -/

theorem loadSource_no_buffer_calls (w : World) (P : Call → Prop)
    (hP : ∀ c, c.allocated? = none → c.copied? = none → c.length? = none → P c)
    (s : St) (hs : ∀ c ∈ s.trace, P c) :
    wp (loadSource w) (fun _ s' => ∀ c ∈ s'.trace, P c) s := by
  simp only [loadSource, LoadAsRGB24BitmapWithSize, wp_bind, wp_OK_OR_BAIL, wp_callFn,
    wp_GetWIC, wp_ite, wp_pure, wp_bail, wp_invoke, wp_ret, forall_mem_push, trace_setFactory]
  have hs' : (∀ c ∈ s.trace, P c) ↔ True := iff_true_intro hs
  simp [hs', hP, Call.allocated?, Call.copied?, Call.length?]

theorem createRGB24Sample_buffer (w : World) (tw th : Nat) (s : St)
    (ha : allocations s.trace = []) (hc : copies s.trace = []) (hl : lengths s.trace = []) :
    wp (createRGB24Sample w tw th) (fun r s' =>
      r ≠ Flow.fault ∧
      (∀ x, (allocations s'.trace).head? = some x →
        x = (nPixelBytes tw th, MF_64_BYTE_ALIGNMENT)) ∧
      (∀ x, (copies s'.trace).head? = some x → x = (mul32 3 tw, nPixelBytes tw th)) ∧
      (∀ x, (lengths s'.trace).head? = some x → x = nPixelBytes tw th) ∧
      (∀ smp, r = Flow.next smp →
        ∃ la lc ll,
          allocations s'.trace = (nPixelBytes tw th, MF_64_BYTE_ALIGNMENT) :: la ∧
          copies s'.trace = (mul32 3 tw, nPixelBytes tw th) :: lc ∧
          lengths s'.trace = nPixelBytes tw th :: ll)) s := by
  simp only [allocations, copies, lengths] at ha hc hl
  simp only [createRGB24Sample, wp_bind, wp_OK_OR_BAIL, wp_pure]
  simp [St.push, allocations, copies, lengths, List.filterMap_append, ha, hc, hl,
    Call.allocated?, Call.copied?, Call.length?]

/-- C3, amended: for every target subtype, the raw RGB24 buffer that
    `LoadImageAsSample` builds before it branches on the subtype is sized by
    `nPixelBytes`. In every run the first buffer allocation, if any, asks for
    `nPixelBytes` bytes (64-byte aligned), the first pixel copy, if any, copies
    `nPixelBytes` bytes with stride `3 * targetWidth`, and the first current
    length set, if any, is `nPixelBytes`; when a sample is returned, whatever the
    subtype, all three calls were made, and for RGB24 the returned sample holds
    exactly that buffer. Here `nPixelBytes` is `targetWidth * targetHeight * 3`
    reduced modulo `2^32`, whatever the source image size: the exact product
    when the product is below `2^32`, and then not zero unless a target dimension
    is zero. -/
theorem LoadImageAsSample_canonical_length (w : World) (b : Bool) :
    (∀ x, (allocations (LoadImageAsSample.calls w b)).head? = some x →
      x = (nPixelBytes (u32 w.targetWidth) (u32 w.targetHeight), MF_64_BYTE_ALIGNMENT)) ∧
    (∀ x, (copies (LoadImageAsSample.calls w b)).head? = some x →
      x = (mul32 3 (u32 w.targetWidth),
           nPixelBytes (u32 w.targetWidth) (u32 w.targetHeight))) ∧
    (∀ x, (lengths (LoadImageAsSample.calls w b)).head? = some x →
      x = nPixelBytes (u32 w.targetWidth) (u32 w.targetHeight)) ∧
    (∀ smp, (LoadImageAsSample w (St.start b)).1 = Flow.next smp →
      (allocations (LoadImageAsSample.calls w b)).head? =
        some (nPixelBytes (u32 w.targetWidth) (u32 w.targetHeight), MF_64_BYTE_ALIGNMENT) ∧
      (copies (LoadImageAsSample.calls w b)).head? =
        some (mul32 3 (u32 w.targetWidth),
              nPixelBytes (u32 w.targetWidth) (u32 w.targetHeight)) ∧
      (lengths (LoadImageAsSample.calls w b)).head? =
        some (nPixelBytes (u32 w.targetWidth) (u32 w.targetHeight))) ∧
    (∀ smp, w.guidSubtype = GUID.MFVideoFormat_RGB24 →
      (LoadImageAsSample w (St.start b)).1 = Flow.next smp →
      smp.buffers =
        [{ cbMaxLength := nPixelBytes (u32 w.targetWidth) (u32 w.targetHeight),
           fAlignmentFlags := MF_64_BYTE_ALIGNMENT,
           cbCurrentLength := some (nPixelBytes (u32 w.targetWidth) (u32 w.targetHeight)) }]) ∧
    nPixelBytes (u32 w.targetWidth) (u32 w.targetHeight) =
      (u32 w.targetWidth * u32 w.targetHeight * 3) % 4294967296 ∧
    (u32 w.targetWidth * u32 w.targetHeight * 3 < 4294967296 →
      nPixelBytes (u32 w.targetWidth) (u32 w.targetHeight) =
        u32 w.targetWidth * u32 w.targetHeight * 3) ∧
    (u32 w.targetWidth * u32 w.targetHeight * 3 < 4294967296 →
      0 < u32 w.targetWidth → 0 < u32 w.targetHeight →
      nPixelBytes (u32 w.targetWidth) (u32 w.targetHeight) ≠ 0) := by
  have key : wp (LoadImageAsSample w) (fun r s' =>
      (∀ x, (allocations s'.trace).head? = some x →
        x = (nPixelBytes (u32 w.targetWidth) (u32 w.targetHeight), MF_64_BYTE_ALIGNMENT)) ∧
      (∀ x, (copies s'.trace).head? = some x →
        x = (mul32 3 (u32 w.targetWidth),
             nPixelBytes (u32 w.targetWidth) (u32 w.targetHeight))) ∧
      (∀ x, (lengths s'.trace).head? = some x →
        x = nPixelBytes (u32 w.targetWidth) (u32 w.targetHeight)) ∧
      (∀ smp, r = Flow.next smp →
        (allocations s'.trace).head? =
          some (nPixelBytes (u32 w.targetWidth) (u32 w.targetHeight), MF_64_BYTE_ALIGNMENT) ∧
        (copies s'.trace).head? =
          some (mul32 3 (u32 w.targetWidth),
                nPixelBytes (u32 w.targetWidth) (u32 w.targetHeight)) ∧
        (lengths s'.trace).head? =
          some (nPixelBytes (u32 w.targetWidth) (u32 w.targetHeight)))) (St.start b) := by
    unfold LoadImageAsSample
    rw [wp_bind]
    have h1 := loadSource_no_buffer_calls w
      (fun c => c.allocated? = none ∧ c.copied? = none ∧ c.length? = none)
      (fun _ h1 h2 h3 => ⟨h1, h2, h3⟩) (St.start b) (by simp [St.start])
    refine wp_mono _ _ _ _ (fun r1 s1 hs1 => ?_) h1
    have ha1 : allocations s1.trace = [] :=
      List.filterMap_eq_nil_iff.2 (fun c hc => (hs1 c hc).1)
    have hc1 : copies s1.trace = [] :=
      List.filterMap_eq_nil_iff.2 (fun c hc => (hs1 c hc).2.1)
    have hl1 : lengths s1.trace = [] :=
      List.filterMap_eq_nil_iff.2 (fun c hc => (hs1 c hc).2.2)
    cases r1 with
    | bail => simp [ha1, hc1, hl1]
    | fault => simp [ha1, hc1, hl1]
    | next bmp =>
      dsimp only
      rw [wp_bind]
      refine wp_mono _ _ _ _ (fun r2 s2 hs2 => ?_)
        (createRGB24Sample_buffer w (u32 w.targetWidth) (u32 w.targetHeight) s1 ha1 hc1 hl1)
      obtain ⟨hnf, ha2, hc2, hl2, hfull⟩ := hs2
      cases r2 with
      | fault => exact absurd rfl hnf
      | bail => exact ⟨ha2, hc2, hl2, by simp⟩
      | next smp0 =>
        dsimp only
        obtain ⟨la, lc, ll, ea, ec, el⟩ := hfull smp0 rfl
        unfold wp
        rw [framed_convertToSubtype w _ _ smp0 s2]
        simp only [allocations, copies, lengths] at ea ec el
        simp [allocations, copies, lengths, List.filterMap_append, ea, ec, el]
  unfold wp at key
  obtain ⟨k1, k2, k3, k4⟩ := key
  refine ⟨k1, k2, k3, k4, fun smp hsub h =>
    (LoadImageAsSample_rgb24_buffer w b smp hsub h).1, nPixelBytes_eq _ _, ?_, ?_⟩
  · intro hfit
    rw [nPixelBytes_eq, Nat.mod_eq_of_lt hfit]
  · intro hfit hw hh
    rw [nPixelBytes_eq, Nat.mod_eq_of_lt hfit]
    positivity

/-- The amended C3 at a 4 x 2 MJPG target: the sample returned wraps the JPEG
    stream, and the raw buffer built on the way was allocated, filled and
    sized with 24 bytes. -/
theorem LoadImageAsSample_canonical_length_witness :
    (LoadImageAsSample World.mjpg (St.start false)).1 =
      Flow.next { duration := none, time := none,
                  buffers := [{ cbMaxLength := 1000, fAlignmentFlags := MF_64_BYTE_ALIGNMENT,
                                cbCurrentLength := some 1000 }] } ∧
    (allocations (LoadImageAsSample.calls World.mjpg false)).head? =
      some (24, MF_64_BYTE_ALIGNMENT) ∧
    (copies (LoadImageAsSample.calls World.mjpg false)).head? = some (12, 24) ∧
    (lengths (LoadImageAsSample.calls World.mjpg false)).head? = some 24 :=
  ⟨rfl,
    (LoadImageAsSample_canonical_length World.mjpg false).2.2.2.1
      { duration := none, time := none,
        buffers := [{ cbMaxLength := 1000, fAlignmentFlags := MF_64_BYTE_ALIGNMENT,
                      cbCurrentLength := some 1000 }] }
      rfl⟩

/-! ## Calls that every run makes -/

theorem mem_trace_of_framed {α : Type} (m : M α) (h : framed m) (s : St) (c : Call)
    (hc : c ∈ s.trace) : c ∈ (m s).2.trace := by
  rw [h s]
  exact List.mem_append_left _ hc

theorem wp_mem_of_framed {α : Type} (m : M α) (h : framed m) (s : St) (c : Call)
    (hc : c ∈ s.trace) : wp m (fun _ s' => c ∈ s'.trace) s :=
  mem_trace_of_framed m h s c hc

/-- Every run of `EncodeBitmapToContainer` calls `CreateEncoder`. -/
theorem EncodeBitmapToContainer_calls_CreateEncoder (w : EncoderWorld) (width height : Nat)
    (s : St) : Call.CreateEncoder ∈ (EncodeBitmapToContainer w width height s).2.trace := by
  have key : wp (EncodeBitmapToContainer w width height)
      (fun _ s' => Call.CreateEncoder ∈ s'.trace) s := by
    simp only [EncodeBitmapToContainer, wp_bind, wp_invoke, wp_ite, wp_OK_OR_BAIL, wp_pure,
      wp_bail, mem_push]
    simp
  exact key

/-- Every run of `ConvertIMFVideoSample` queries the registry. -/
theorem ConvertIMFVideoSample_calls_MFTEnumEx (w : ConvertWorld) (width height : Nat)
    (s : St) :
    Call.MFTEnumEx Category.MFT_CATEGORY_VIDEO_PROCESSOR ∈
      (ConvertIMFVideoSample w width height s).2.trace := by
  have henum : ∀ s1 : St, wp (enumerate w transformerCategories)
      (fun _ s' => Call.MFTEnumEx Category.MFT_CATEGORY_VIDEO_PROCESSOR ∈ s'.trace) s1 := by
    intro s1
    unfold transformerCategories enumerate
    simp only [wp_bind, wp_OK_OR_BAIL, wp_ite, wp_pure, mem_push]
    refine ⟨fun _ => Or.inr trivial, fun _ => ⟨fun _ => Or.inr trivial, fun _ => ?_⟩⟩
    exact wp_mem_of_framed _ (framed_enumerate _ _) _ _ (by simp [mem_push])
  have key : wp (ConvertIMFVideoSample w width height)
      (fun _ s' => Call.MFTEnumEx Category.MFT_CATEGORY_VIDEO_PROCESSOR ∈ s'.trace) s := by
    unfold ConvertIMFVideoSample
    simp only [wp_bind, wp_invoke]
    refine wp_mono _ _ _ _ (fun r s' h => ?_) (henum _)
    cases r with
    | bail => exact h
    | fault => exact h
    | next acts =>
      simp only []
      refine wp_mono _ _ _ _ (fun r2 s2 h2 => ?_)
        (wp_mem_of_framed _ (framed_activate _ _ _) s' _ h)
      cases r2 with
      | bail => exact h2
      | fault => exact h2
      | next vt =>
        simp only []
        refine wp_mono _ _ _ _ (fun r3 s3 h3 => ?_)
          (wp_mem_of_framed _
            (framed_ite _ _ _ (framed_invoke _) (framed_pure _)) s2 _ h2)
        cases r3 with
        | bail => exact h3
        | fault => exact h3
        | next u =>
          simp only []
          cases vt with
          | none =>
            simp only [wp_bind, wp_invoke, wp_bail, mem_push]
            exact Or.inl h3
          | some kt =>
            exact wp_mem_of_framed _
              (framed_scope_exit _ _ (framed_driveTransform _ _ _ _ _)) s3 _ h3
  exact key

/-! ## What a returned sample implies -/

theorem bind_next_inv {α β : Type} (m : M α) (f : α → M β) (s : St) (b : β)
    (h : ((m >>= f) s).1 = Flow.next b) :
    ∃ a s1, m s = (Flow.next a, s1) ∧ (f a s1).1 = Flow.next b := by
  rw [bind_apply] at h
  rcases hm : m s with ⟨r, s1⟩
  rw [hm] at h
  cases r with
  | next a => exact ⟨a, s1, rfl, h⟩
  | bail => cases h
  | fault => cases h

theorem loadSource_next (w : World) (s : St) (bmp : BitmapSource)
    (h : (loadSource w s).1 = Flow.next bmp) :
    failed w.MFGetAttributeSize = false ∧ failed w.GetGUID = false ∧
    (s.s_Factory = false → failed w.CoCreateInstance = false) ∧
    w.imageStream = true ∧
    failed w.loader.CreateDecoderFromStream = false ∧ failed w.loader.GetFrame = false ∧
    failed w.loader.GetSize = false ∧
    (u32 w.targetWidth ≠ u32 w.loader.imageWidth ∨
        u32 w.targetHeight ≠ u32 w.loader.imageHeight →
      failed w.loader.CreateBitmapScaler = false ∧ failed w.loader.InitializeScaler = false) ∧
    failed w.loader.GetPixelFormat = false := by
  have key : wp (loadSource w) (fun r _ => ∀ bmp, r = Flow.next bmp →
      failed w.MFGetAttributeSize = false ∧ failed w.GetGUID = false ∧
      (s.s_Factory = false → failed w.CoCreateInstance = false) ∧
      w.imageStream = true ∧
      failed w.loader.CreateDecoderFromStream = false ∧ failed w.loader.GetFrame = false ∧
      failed w.loader.GetSize = false ∧
      (u32 w.targetWidth ≠ u32 w.loader.imageWidth ∨
          u32 w.targetHeight ≠ u32 w.loader.imageHeight →
        failed w.loader.CreateBitmapScaler = false ∧
          failed w.loader.InitializeScaler = false) ∧
      failed w.loader.GetPixelFormat = false) s := by
    simp only [loadSource, LoadAsRGB24BitmapWithSize, wp_bind, wp_OK_OR_BAIL, wp_callFn,
      wp_GetWIC, wp_ite, wp_pure, wp_bail, wp_invoke, wp_ret]
    simp +contextual [St.push]
  exact key bmp h

theorem createRGB24Sample_next (w : World) (tw th : Nat) (s : St) (smp : Sample)
    (h : (createRGB24Sample w tw th s).1 = Flow.next smp) :
    (failed w.outputSample.MFCreateSample = false ∧
      failed w.outputSample.SetSampleDuration = false ∧
      failed w.outputSample.SetSampleTime = false ∧
      failed w.outputSample.MFCreateAlignedMemoryBuffer = false ∧
      failed w.outputSample.Lock = false ∧ failed w.CopyPixels = false ∧
      failed w.outputSample.Unlock = false ∧
      failed w.outputSample.SetCurrentLength = false ∧
      failed w.outputSample.AddBuffer = false) ∧
    smp = { duration := some 333333, time := some 1,
            buffers := [{ cbMaxLength := nPixelBytes tw th,
                          fAlignmentFlags := MF_64_BYTE_ALIGNMENT,
                          cbCurrentLength := some (nPixelBytes tw th) }] } := by
  have key : wp (createRGB24Sample w tw th) (fun r _ => ∀ smp, r = Flow.next smp →
      (failed w.outputSample.MFCreateSample = false ∧
        failed w.outputSample.SetSampleDuration = false ∧
        failed w.outputSample.SetSampleTime = false ∧
        failed w.outputSample.MFCreateAlignedMemoryBuffer = false ∧
        failed w.outputSample.Lock = false ∧ failed w.CopyPixels = false ∧
        failed w.outputSample.Unlock = false ∧
        failed w.outputSample.SetCurrentLength = false ∧
        failed w.outputSample.AddBuffer = false) ∧
      smp = ⟨some 333333, some 1, [⟨nPixelBytes tw th, MF_64_BYTE_ALIGNMENT,
        some (nPixelBytes tw th)⟩]⟩) s := by
    simp only [createRGB24Sample, wp_bind, wp_OK_OR_BAIL, wp_pure]
    simp +contextual [Sample.fresh]
  exact key smp h

theorem EncodeBitmapToContainer_next (w : EncoderWorld) (width height : Nat) (s : St)
    (h : (EncodeBitmapToContainer w width height s).1 = Flow.next ()) :
    w.encoder = true ∧ failed w.CreateStreamOnHGlobal = false ∧
    failed w.CreateNewFrame = false ∧ failed w.InitializeFrame = false ∧
    failed w.SetPixelFormat = false ∧ failed w.SetSize = false ∧
    failed w.WriteSource = false ∧ failed w.CommitFrame = false ∧
    failed w.CommitEncoder = false := by
  have key : wp (EncodeBitmapToContainer w width height) (fun r _ => r = Flow.next () →
      w.encoder = true ∧ failed w.CreateStreamOnHGlobal = false ∧
      failed w.CreateNewFrame = false ∧ failed w.InitializeFrame = false ∧
      failed w.SetPixelFormat = false ∧ failed w.SetSize = false ∧
      failed w.WriteSource = false ∧ failed w.CommitFrame = false ∧
      failed w.CommitEncoder = false) s := by
    simp only [EncodeBitmapToContainer, wp_bind, wp_OK_OR_BAIL, wp_pure, wp_invoke, wp_ite,
      wp_bail]
    simp +contextual
  exact key h

theorem wrapJpgStream_next (w : World) (s : St) (smp : Sample)
    (h : (wrapJpgStream w s).1 = Flow.next smp) :
    failed w.Stat = false ∧ failed w.GetHGlobalFromStream = false ∧
    failed w.jpgSample.MFCreateSample = false ∧
    failed w.jpgSample.MFCreateAlignedMemoryBuffer = false ∧
    failed w.jpgSample.Lock = false ∧ u64 w.cbSize ≤ u32 w.jpgSample.max_length ∧
    failed w.jpgSample.Unlock = false ∧ failed w.jpgSample.SetCurrentLength = false ∧
    failed w.jpgSample.AddBuffer = false := by
  have key : wp (wrapJpgStream w) (fun r _ => ∀ smp, r = Flow.next smp →
      failed w.Stat = false ∧ failed w.GetHGlobalFromStream = false ∧
      failed w.jpgSample.MFCreateSample = false ∧
      failed w.jpgSample.MFCreateAlignedMemoryBuffer = false ∧
      failed w.jpgSample.Lock = false ∧ u64 w.cbSize ≤ u32 w.jpgSample.max_length ∧
      failed w.jpgSample.Unlock = false ∧ failed w.jpgSample.SetCurrentLength = false ∧
      failed w.jpgSample.AddBuffer = false) s := by
    simp only [wrapJpgStream, wp_bind, wp_OK_OR_BAIL, wp_scope_exit, wp_ite, wp_invoke,
      wp_pure, wp_bail]
    simp +contextual
  exact key smp h

theorem sub32_one (a : Nat) (h1 : 1 ≤ a) (h2 : a < 4294967296) : sub32 a 1 = a - 1 := by
  unfold sub32 u32
  rw [Nat.mod_eq_of_lt h2]
  omega

theorem driveTransform_next (w : ConvertWorld) (k : Nat) (t : Transform) (width height : Nat)
    (s : St) (smp : Sample) (h : (driveTransform w k t width height s).1 = Flow.next smp) :
    (failed w.MFCreateMediaType = false ∧ failed w.MFSetAttributeSize = false ∧
      failed w.MFSetAttributeRatio = false ∧ failed t.SetInputType = false ∧
      failed t.SetOutputType = false ∧ failed t.ProcessInput = false ∧
      failed t.GetOutputStreamInfo = false) ∧
    ((mustAllocateSample (u32 t.dwFlags) = true ∧
        (failed w.outputSample.MFCreateSample = false ∧
          failed w.outputSample.SetSampleDuration = false ∧
          failed w.outputSample.SetSampleTime = false ∧
          failed w.outputSample.MFCreateAlignedMemoryBuffer = false ∧
          failed w.outputSample.SetCurrentLength = false ∧
          failed w.outputSample.AddBuffer = false) ∧
        smp = { duration := some 333333, time := some 1,
                buffers := [{ cbMaxLength := u32 t.cbSize,
                              fAlignmentFlags := sub32 (u32 t.cbAlignment) 1,
                              cbCurrentLength := some (u32 t.cbSize) }] }) ∨
     (mustAllocateSample (u32 t.dwFlags) = false ∧ t.pSample = some smp)) := by
  have key : wp (driveTransform w k t width height) (fun r _ => ∀ smp, r = Flow.next smp →
      (failed w.MFCreateMediaType = false ∧ failed w.MFSetAttributeSize = false ∧
        failed w.MFSetAttributeRatio = false ∧ failed t.SetInputType = false ∧
        failed t.SetOutputType = false ∧ failed t.ProcessInput = false ∧
        failed t.GetOutputStreamInfo = false) ∧
      ((mustAllocateSample (u32 t.dwFlags) = true ∧
          (failed w.outputSample.MFCreateSample = false ∧
            failed w.outputSample.SetSampleDuration = false ∧
            failed w.outputSample.SetSampleTime = false ∧
            failed w.outputSample.MFCreateAlignedMemoryBuffer = false ∧
            failed w.outputSample.SetCurrentLength = false ∧
            failed w.outputSample.AddBuffer = false) ∧
          smp = ⟨some 333333, some 1, [⟨u32 t.cbSize, sub32 (u32 t.cbAlignment) 1,
            some (u32 t.cbSize)⟩]⟩) ∨
       (mustAllocateSample (u32 t.dwFlags) = false ∧ t.pSample = some smp))) s := by
    simp only [driveTransform, allocateOutputSample, wp_bind, wp_OK_OR_BAIL, wp_ite, wp_pure,
      wp_bail, wp_invoke, wp_ret]
    simp +contextual [Sample.fresh]
  exact key smp h

theorem exists_first_activating (acts : List Activate) :
    (∀ a ∈ acts, a.activates = false) ∨
    ∃ (k : Nat) (a : Activate), acts[k]? = some a ∧ a.activates = true ∧
      ∀ (j : Nat) (a' : Activate), j < k → acts[j]? = some a' → a'.activates = false := by
  induction acts with
  | nil => exact Or.inl (by simp)
  | cons a rest ih =>
    cases ha : a.activates with
    | true =>
      exact Or.inr ⟨0, a, by simp, ha, fun j a' hj => absurd hj (Nat.not_lt_zero _)⟩
    | false =>
      rcases ih with hall | ⟨k, a', hk, hact, hfirst⟩
      · refine Or.inl (fun x hx => ?_)
        rcases List.mem_cons.1 hx with rfl | hx
        · exact ha
        · exact hall x hx
      · refine Or.inr ⟨k + 1, a', ?_, hact, fun j a'' hj hj' => ?_⟩
        · rw [List.getElem?_cons_succ]
          exact hk
        · cases j with
          | zero =>
            rw [List.getElem?_cons_zero] at hj'
            cases hj'
            exact ha
          | succ j =>
            rw [List.getElem?_cons_succ] at hj'
            exact hfirst j a'' (Nat.lt_of_succ_lt_succ hj) hj'

theorem scope_exit_fst {α : Type} (c : Call) (body : M α) (s : St) :
    (scope_exit c body s).1 = (body s).1 := rfl

theorem ConvertIMFVideoSample_next (w : ConvertWorld) (width height : Nat) (b : Bool)
    (smp : Sample)
    (h : (ConvertIMFVideoSample w width height (St.start b)).1 = Flow.next smp) :
    ∃ (c : Category) (k : Nat) (a : Activate) (s1 : St),
      failed (w.MFTEnumEx c).1 = false ∧ (w.MFTEnumEx c).2[k]? = some a ∧
      a.activates = true ∧
      (∀ (j : Nat) (a' : Activate), j < k → (w.MFTEnumEx c).2[j]? = some a' →
        a'.activates = false) ∧
      (driveTransform w k a.transform width height s1).1 = Flow.next smp := by
  obtain ⟨le, r, he, -, -, -, -, -, -, -, -, c, -, hcase⟩ :=
    enumerate_spec w ((St.start b).push Call.GetGUID)
  simp only [St.push, St.start, List.nil_append, List.singleton_append] at he
  rcases hcase with ⟨-, rfl⟩ | ⟨hok, rfl⟩
  · simp [ConvertIMFVideoSample, bind_apply, invoke_apply, St.push, St.start, he] at h
  · obtain ⟨la, vt, ha, -, -, -, hnone, hsome⟩ :=
      activate_none (w.MFTEnumEx c).2 0 { trace := Call.GetGUID :: le, s_Factory := b }
    simp only [List.cons_append] at ha
    rcases exists_first_activating (w.MFTEnumEx c).2 with hall | ⟨k, a, hk, hact, hfirst⟩
    · obtain ⟨rfl, -⟩ := hnone hall
      by_cases hlen : ((w.MFTEnumEx c).2.length != 0) = true <;>
        simp [ConvertIMFVideoSample, bind_apply, invoke_apply, St.push, St.start, he, ha, hlen,
          bail_apply, pure_apply] at h
    · obtain ⟨rfl, -⟩ := hsome k a hk hact hfirst
      simp only [Nat.zero_add] at ha
      by_cases hlen : ((w.MFTEnumEx c).2.length != 0) = true
      · simp only [ConvertIMFVideoSample, bind_apply, invoke_apply, St.push, St.start,
          List.nil_append, he, ha, if_pos hlen, scope_exit_fst] at h
        exact ⟨c, k, a, _, hok, hk, hact, hfirst, h⟩
      · simp only [ConvertIMFVideoSample, bind_apply, invoke_apply, St.push, St.start,
          List.nil_append, he, ha, if_neg hlen, pure_apply, scope_exit_fst] at h
        exact ⟨c, k, a, _, hok, hk, hact, hfirst, h⟩

theorem callFn_next_some {α : Type} (f : M α) (s s1 : St) (a : α)
    (h : callFn f s = (Flow.next (some a), s1)) : (f s).1 = Flow.next a := by
  unfold callFn at h
  rcases hf : f s with ⟨r, s'⟩
  rw [hf] at h
  cases r with
  | next x =>
    simp at h
    rw [h.1]
  | bail => simp at h
  | fault => simp at h

theorem framed_fst {α : Type} (m : M α) (h : framed m) (s : St) :
    (m s).1 = (m (St.start s.s_Factory)).1 := by
  rw [h s]
  rfl

/-- Fail-closed, as far as the code goes: whenever `LoadImageAsSample` returns a
    sample, every call whose status the code checks on the path taken has
    succeeded. On the transform path the checked calls are the registry query
    that produced the candidates, the activation of the candidate in use, the
    configuration of the transform, `ProcessInput`, `GetOutputStreamInfo` and the
    calls that allocate the output sample; `ProcessOutput` is not among them. -/
theorem LoadImageAsSample_sample_requires_success (w : World) (b : Bool) (smp : Sample)
    (h : (LoadImageAsSample w (St.start b)).1 = Flow.next smp) :
    (failed w.MFGetAttributeSize = false ∧ failed w.GetGUID = false ∧
      (b = false → failed w.CoCreateInstance = false) ∧
      w.imageStream = true ∧
      failed w.loader.CreateDecoderFromStream = false ∧ failed w.loader.GetFrame = false ∧
      failed w.loader.GetSize = false ∧
      (u32 w.targetWidth ≠ u32 w.loader.imageWidth ∨
          u32 w.targetHeight ≠ u32 w.loader.imageHeight →
        failed w.loader.CreateBitmapScaler = false ∧
          failed w.loader.InitializeScaler = false) ∧
      failed w.loader.GetPixelFormat = false) ∧
    (failed w.outputSample.MFCreateSample = false ∧
      failed w.outputSample.SetSampleDuration = false ∧
      failed w.outputSample.SetSampleTime = false ∧
      failed w.outputSample.MFCreateAlignedMemoryBuffer = false ∧
      failed w.outputSample.Lock = false ∧ failed w.CopyPixels = false ∧
      failed w.outputSample.Unlock = false ∧
      failed w.outputSample.SetCurrentLength = false ∧
      failed w.outputSample.AddBuffer = false) ∧
    (w.guidSubtype = GUID.MFVideoFormat_RGB24 →
      smp = { duration := some 333333, time := some 1,
              buffers := [{ cbMaxLength := nPixelBytes (u32 w.targetWidth) (u32 w.targetHeight),
                            fAlignmentFlags := MF_64_BYTE_ALIGNMENT,
                            cbCurrentLength :=
                              some (nPixelBytes (u32 w.targetWidth) (u32 w.targetHeight)) }] }) ∧
    (w.guidSubtype = GUID.MFVideoFormat_MJPG →
      (w.encoder.encoder = true ∧ failed w.encoder.CreateStreamOnHGlobal = false ∧
        failed w.encoder.CreateNewFrame = false ∧ failed w.encoder.InitializeFrame = false ∧
        failed w.encoder.SetPixelFormat = false ∧ failed w.encoder.SetSize = false ∧
        failed w.encoder.WriteSource = false ∧ failed w.encoder.CommitFrame = false ∧
        failed w.encoder.CommitEncoder = false) ∧
      (failed w.Stat = false ∧ failed w.GetHGlobalFromStream = false ∧
        failed w.jpgSample.MFCreateSample = false ∧
        failed w.jpgSample.MFCreateAlignedMemoryBuffer = false ∧
        failed w.jpgSample.Lock = false ∧ u64 w.cbSize ≤ u32 w.jpgSample.max_length ∧
        failed w.jpgSample.Unlock = false ∧ failed w.jpgSample.SetCurrentLength = false ∧
        failed w.jpgSample.AddBuffer = false)) ∧
    (w.guidSubtype ≠ GUID.MFVideoFormat_RGB24 → w.guidSubtype ≠ GUID.MFVideoFormat_MJPG →
      ∃ (c : Category) (k : Nat) (a : Activate),
        failed (w.convert.MFTEnumEx c).1 = false ∧ (w.convert.MFTEnumEx c).2[k]? = some a ∧
        a.activates = true ∧
        (failed w.convert.MFCreateMediaType = false ∧
          failed w.convert.MFSetAttributeSize = false ∧
          failed w.convert.MFSetAttributeRatio = false ∧
          failed a.transform.SetInputType = false ∧
          failed a.transform.SetOutputType = false ∧
          failed a.transform.ProcessInput = false ∧
          failed a.transform.GetOutputStreamInfo = false) ∧
        ((mustAllocateSample (u32 a.transform.dwFlags) = true ∧
            (failed w.convert.outputSample.MFCreateSample = false ∧
              failed w.convert.outputSample.SetSampleDuration = false ∧
              failed w.convert.outputSample.SetSampleTime = false ∧
              failed w.convert.outputSample.MFCreateAlignedMemoryBuffer = false ∧
              failed w.convert.outputSample.SetCurrentLength = false ∧
              failed w.convert.outputSample.AddBuffer = false) ∧
            smp = { duration := some 333333, time := some 1,
                    buffers := [{ cbMaxLength := u32 a.transform.cbSize,
                                  fAlignmentFlags := sub32 (u32 a.transform.cbAlignment) 1,
                                  cbCurrentLength := some (u32 a.transform.cbSize) }] }) ∨
         (mustAllocateSample (u32 a.transform.dwFlags) = false ∧
            a.transform.pSample = some smp))) := by
  unfold LoadImageAsSample at h
  obtain ⟨bmp, s1, h1, hrest⟩ := bind_next_inv _ _ _ _ h
  obtain ⟨smp0, s2, h2, hbranch⟩ := bind_next_inv _ _ _ _ hrest
  have hsrc := loadSource_next w (St.start b) bmp (by rw [h1])
  obtain ⟨hchecks, rfl⟩ := createRGB24Sample_next w _ _ s1 smp0 (by rw [h2])
  refine ⟨hsrc, hchecks, fun hsub => ?_, fun hsub => ?_, fun hsub1 hsub2 => ?_⟩
  · simp only [convertToSubtype, hsub, if_true, pure_apply] at hbranch
    cases hbranch
    rfl
  · have hne : ¬ (GUID.MFVideoFormat_MJPG = GUID.MFVideoFormat_RGB24) := by simp
    simp only [convertToSubtype, hsub, hne, if_true, if_false] at hbranch
    obtain ⟨jpgStream, s3, h3, hderef⟩ := bind_next_inv _ _ _ _ hbranch
    obtain ⟨u, s4, h4, hwrap⟩ := bind_next_inv _ _ _ _ hderef
    clear hderef hbranch hrest h
    cases jpgStream with
    | none => simp [fault_apply] at h4
    | some u' =>
      exact ⟨EncodeBitmapToContainer_next _ _ _ _ (callFn_next_some _ _ _ _ h3),
        wrapJpgStream_next w s4 smp hwrap⟩
  · simp only [convertToSubtype, hsub1, hsub2, if_false] at hbranch
    obtain ⟨converted, s3, h3, hret⟩ := bind_next_inv _ _ _ _ hbranch
    clear hbranch hrest h
    cases converted with
    | none => simp [ret, bail_apply] at hret
    | some smp' =>
      simp only [ret, pure_apply] at hret
      cases hret
      have hconv := callFn_next_some _ _ _ _ h3
      rw [framed_fst _ (framed_ConvertIMFVideoSample _ _ _)] at hconv
      obtain ⟨c, k, a, s5, hok, hk, hact, -, hdrive⟩ :=
        ConvertIMFVideoSample_next _ _ _ _ _ hconv
      obtain ⟨hcfg, hres⟩ := driveTransform_next _ _ _ _ _ _ _ hdrive
      exact ⟨c, k, a, hok, hk, hact, hcfg, hres⟩

/-! ## Runs on which the code departs from its specification -/

/-- C1: a run in which `ProcessOutput` fails still returns a sample. The target
    subtype needs a transform, every call up to `ProcessOutput` succeeds, the
    transform asks for a caller-allocated output sample, and `ProcessOutput`
    reports `E_FAIL`: the failure is logged and the caller-allocated sample, which
    the transform never filled, is returned. -/
theorem LoadImageAsSample_returns_sample_when_ProcessOutput_fails :
    failed E_FAIL = true ∧
    LoadImageAsSample World.processOutputFails (St.start false) =
      (Flow.next { duration := some 333333, time := some 1,
                   buffers := [{ cbMaxLength := 64, fAlignmentFlags := 15,
                                 cbCurrentLength := some 64 }] },
       { trace := [Call.MFGetAttributeSize, Call.GetGUID, Call.CoCreateInstance,
          Call.CreateDecoderFromStream, Call.GetFrame, Call.GetSize, Call.GetPixelFormat,
          Call.MFCreateSample, Call.SetSampleDuration 333333, Call.SetSampleTime 1,
          Call.MFCreateAlignedMemoryBuffer 24 63, Call.Lock, Call.CopyPixels 12 24,
          Call.Unlock, Call.SetCurrentLength 24, Call.AddBuffer,
          Call.GetGUID, Call.MFTEnumEx Category.MFT_CATEGORY_VIDEO_PROCESSOR,
          Call.ActivateObject 0, Call.Release 0, Call.CoTaskMemFree,
          Call.MFCreateMediaType, Call.SetGUID, Call.SetGUID, Call.SetUINT32, Call.SetUINT32,
          Call.MFSetAttributeSize 4 2, Call.MFSetAttributeRatio 4 2, Call.SetInputType 0,
          Call.SetOutputType 0, Call.ProcessInput 0, Call.GetOutputStreamInfo 0,
          Call.MFCreateSample, Call.SetSampleDuration 333333, Call.SetSampleTime 1,
          Call.MFCreateAlignedMemoryBuffer 64 15, Call.SetCurrentLength 64, Call.AddBuffer,
          Call.ProcessOutput 0, Call.LOG "Failed to convert image frame",
          Call.MFShutdownObject 0],
         s_Factory := true }) :=
  ⟨rfl, rfl⟩

/-- C5: a run for an MJPG target in which `CreateEncoder` yields no encoder.
    `EncodeBitmapToContainer` returns a null stream right after `CreateEncoder`,
    and `LoadImageAsSample` goes on to call `Stat` through that null stream: the
    run ends in a null dereference, not in a null result. -/
theorem LoadImageAsSample_dereferences_null_jpgStream :
    (callFn (EncodeBitmapToContainer World.noEncoder.encoder 4 2) (St.start true)).1 =
      Flow.next none ∧
    LoadImageAsSample World.noEncoder (St.start false) =
      (Flow.fault,
       { trace := [Call.MFGetAttributeSize, Call.GetGUID, Call.CoCreateInstance,
          Call.CreateDecoderFromStream, Call.GetFrame, Call.GetSize, Call.GetPixelFormat,
          Call.MFCreateSample, Call.SetSampleDuration 333333, Call.SetSampleTime 1,
          Call.MFCreateAlignedMemoryBuffer 24 63, Call.Lock, Call.CopyPixels 12 24,
          Call.Unlock, Call.SetCurrentLength 24, Call.AddBuffer,
          Call.CreateEncoder],
         s_Factory := true }) :=
  ⟨rfl, rfl⟩

/-- C7: a run for an MJPG target in which every call succeeds. The sample
    returned wraps the 1000 encoded bytes, and neither `SetSampleDuration` nor
    `SetSampleTime` was called on it: its duration and its timestamp are unset. -/
theorem LoadImageAsSample_mjpg_sample_is_not_stamped :
    LoadImageAsSample World.mjpg (St.start false) =
      (Flow.next { duration := none, time := none,
                   buffers := [{ cbMaxLength := 1000, fAlignmentFlags := 63,
                                 cbCurrentLength := some 1000 }] },
       { trace := [Call.MFGetAttributeSize, Call.GetGUID, Call.CoCreateInstance,
          Call.CreateDecoderFromStream, Call.GetFrame, Call.GetSize, Call.GetPixelFormat,
          Call.MFCreateSample, Call.SetSampleDuration 333333, Call.SetSampleTime 1,
          Call.MFCreateAlignedMemoryBuffer 24 63, Call.Lock, Call.CopyPixels 12 24,
          Call.Unlock, Call.SetCurrentLength 24, Call.AddBuffer,
          Call.CreateEncoder, Call.CreateStreamOnHGlobal, Call.InitializeEncoder,
          Call.CreateNewFrame, Call.InitializeFrame, Call.SetPixelFormat, Call.SetSize 4 2,
          Call.WriteSource, Call.CommitFrame, Call.CommitEncoder,
          Call.Stat, Call.GetHGlobalFromStream, Call.GlobalLock,
          Call.MFCreateSample, Call.MFCreateAlignedMemoryBuffer 1000 63, Call.Lock,
          Call.copy 1000, Call.GlobalUnlock, Call.Unlock, Call.SetCurrentLength 1000,
          Call.AddBuffer],
         s_Factory := true }) :=
  rfl

/-- C8: a run in which the transform declares `cbAlignment = 0` (no alignment
    requirement) and the caller allocates the output sample. The alignment
    argument passed to `MFCreateAlignedMemoryBuffer` is `0 - 1` in 32-bit
    unsigned arithmetic, that is `4294967295`. -/
theorem ConvertIMFVideoSample_alignment_wraps_at_zero :
    sub32 (u32 0) 1 = 4294967295 ∧
    LoadImageAsSample World.noAlignment (St.start false) =
      (Flow.next { duration := some 333333, time := some 1,
                   buffers := [{ cbMaxLength := 64, fAlignmentFlags := 4294967295,
                                 cbCurrentLength := some 64 }] },
       { trace := [Call.MFGetAttributeSize, Call.GetGUID, Call.CoCreateInstance,
          Call.CreateDecoderFromStream, Call.GetFrame, Call.GetSize, Call.GetPixelFormat,
          Call.MFCreateSample, Call.SetSampleDuration 333333, Call.SetSampleTime 1,
          Call.MFCreateAlignedMemoryBuffer 24 63, Call.Lock, Call.CopyPixels 12 24,
          Call.Unlock, Call.SetCurrentLength 24, Call.AddBuffer,
          Call.GetGUID, Call.MFTEnumEx Category.MFT_CATEGORY_VIDEO_PROCESSOR,
          Call.ActivateObject 0, Call.Release 0, Call.CoTaskMemFree,
          Call.MFCreateMediaType, Call.SetGUID, Call.SetGUID, Call.SetUINT32, Call.SetUINT32,
          Call.MFSetAttributeSize 4 2, Call.MFSetAttributeRatio 4 2, Call.SetInputType 0,
          Call.SetOutputType 0, Call.ProcessInput 0, Call.GetOutputStreamInfo 0,
          Call.MFCreateSample, Call.SetSampleDuration 333333, Call.SetSampleTime 1,
          Call.MFCreateAlignedMemoryBuffer 64 4294967295, Call.SetCurrentLength 64,
          Call.AddBuffer, Call.ProcessOutput 0, Call.MFShutdownObject 0],
         s_Factory := true }) :=
  ⟨rfl, rfl⟩

/-- On the MJPG path a null result of `EncodeBitmapToContainer`, whatever made the
    encoder fail, is dereferenced: once the source and the RGB24 sample are there,
    the run ends in a null dereference. -/
theorem LoadImageAsSample_faults_when_encoder_fails (w : World) (b : Bool)
    (bmp : BitmapSource) (smp0 : Sample) (s1 s2 : St)
    (hsub : w.guidSubtype = GUID.MFVideoFormat_MJPG)
    (h1 : loadSource w (St.start b) = (Flow.next bmp, s1))
    (h2 : createRGB24Sample w (u32 w.targetWidth) (u32 w.targetHeight) s1 =
      (Flow.next smp0, s2))
    (h3 : (EncodeBitmapToContainer w.encoder (u32 w.targetWidth) (u32 w.targetHeight) s2).1 =
      Flow.bail) :
    (LoadImageAsSample w (St.start b)).1 = Flow.fault := by
  have hne : ¬ (GUID.MFVideoFormat_MJPG = GUID.MFVideoFormat_RGB24) := by simp
  rcases henc : EncodeBitmapToContainer w.encoder (u32 w.targetWidth) (u32 w.targetHeight) s2
    with ⟨r, s3⟩
  rw [henc] at h3
  simp only at h3
  subst h3
  simp [LoadImageAsSample, bind_apply, h1, h2, convertToSubtype, hsub, callFn, henc,
    fault_apply]

/-- Every sample returned for an MJPG target has neither a duration nor a timestamp. -/
theorem LoadImageAsSample_mjpg_never_stamped (w : World) (b : Bool) (smp : Sample)
    (hsub : w.guidSubtype = GUID.MFVideoFormat_MJPG)
    (h : (LoadImageAsSample w (St.start b)).1 = Flow.next smp) :
    smp.duration = none ∧ smp.time = none := by
  have key : wp (LoadImageAsSample w) (fun r _ => ∀ smp, r = Flow.next smp →
      smp.duration = none ∧ smp.time = none) (St.start b) := by
    unfold LoadImageAsSample
    refine wp_bind_of_forall _ _ _ _ (fun _ s1 => ?_) (by simp) (by simp)
    refine wp_bind_of_forall _ _ _ _ (fun _ s2 => ?_) (by simp) (by simp)
    have hne : ¬ (GUID.MFVideoFormat_MJPG = GUID.MFVideoFormat_RGB24) := by simp
    simp only [convertToSubtype, hsub, hne, if_true, if_false]
    refine wp_bind_of_forall _ _ _ _ (fun _ s3 => ?_) (by simp) (by simp)
    refine wp_bind_of_forall _ _ _ _ (fun _ s4 => ?_) (by simp) (by simp)
    simp only [wrapJpgStream, wp_bind, wp_OK_OR_BAIL, wp_scope_exit, wp_ite, wp_invoke,
      wp_pure, wp_bail]
    simp +contextual [Sample.fresh]
  exact key smp h

end ImageLoading
